import Mathlib

/-!
Shallow embedding of the MockHSM core of `yubihsm.rs` (`src/mockhsm/command.rs`,
`src/mockhsm/adapter.rs` and supporting modules), together with proofs of the
spec's claims about it.  Machine integers are modelled as `Nat` values (with
explicit bounds where width matters), byte strings as `List Nat`, fallible code
as `Option`/`Except`, and a Rust `panic!`/`todo!`/failed `assert!` as the
`none` outcome of a handler.  Modules of the repository that are not part of
the staged sources (the object store internals, the secure-channel codec) are
modelled from the specification's words and say so in their doc comments.
-/

namespace MockHsm

/-- Device error codes (spec section 6; `device::ErrorKind` in the source). -/
inductive DeviceErrorKind
  | OK
  | InvalidCommand
  | InvalidData
  | InvalidSession
  | AuthenticationFailed
  | SessionsFull
  | SessionFailed
  | StorageFailed
  | WrongLength
  | InsufficientPermissions
  | LogFull
  | ObjectNotFound
  | InvalidId
  | InvalidOtp
  | DemoMode
  | CommandUnexecuted
deriving DecidableEq

/-- Single-byte wire code of each device error (spec section 6). -/
def DeviceErrorKind.to_u8 : DeviceErrorKind → Nat
  | .OK => 0x00
  | .InvalidCommand => 0x01
  | .InvalidData => 0x02
  | .InvalidSession => 0x03
  | .AuthenticationFailed => 0x04
  | .SessionsFull => 0x05
  | .SessionFailed => 0x06
  | .StorageFailed => 0x07
  | .WrongLength => 0x08
  | .InsufficientPermissions => 0x09
  | .LogFull => 0x0a
  | .ObjectNotFound => 0x0b
  | .InvalidId => 0x0c
  | .InvalidOtp => 0x0d
  | .DemoMode => 0x0e
  | .CommandUnexecuted => 0xff

/-- Object types stored in the HSM (`object::Type`). -/
inductive ObjType
  | Opaque
  | AuthenticationKey
  | AsymmetricKey
  | WrapKey
  | HmacKey
  | OtpAead
deriving DecidableEq

/-- Wire tag of an object type (YubiHSM2 public documentation values). -/
def ObjType.to_u8 : ObjType → Nat
  | .Opaque => 0x01
  | .AuthenticationKey => 0x02
  | .AsymmetricKey => 0x03
  | .WrapKey => 0x04
  | .HmacKey => 0x05
  | .OtpAead => 0x07

/-- Inverse of `ObjType.to_u8`. -/
def ObjType.from_u8 : Nat → Option ObjType
  | 0x01 => some .Opaque
  | 0x02 => some .AuthenticationKey
  | 0x03 => some .AsymmetricKey
  | 0x04 => some .WrapKey
  | 0x05 => some .HmacKey
  | 0x07 => some .OtpAead
  | _ => none

/-- How an object entered the device (`object::Origin`). -/
inductive Origin
  | Generated
  | Imported
  | Wrapped
deriving DecidableEq

/-- Wire tag of an origin (YubiHSM2 public documentation values). -/
def Origin.to_u8 : Origin → Nat
  | .Generated => 0x01
  | .Imported => 0x02
  | .Wrapped => 0x10

/-- Inverse of `Origin.to_u8`. -/
def Origin.from_u8 : Nat → Option Origin
  | 0x01 => some .Generated
  | 0x02 => some .Imported
  | 0x10 => some .Wrapped
  | _ => none

/-- RSA PKCS#1 v1.5 signature algorithms (`rsa::pkcs1::Algorithm`). -/
inductive Pkcs1Alg | Sha1 | Sha256 | Sha384 | Sha512
deriving DecidableEq

/-- RSA PSS signature algorithms (`rsa::pss::Algorithm`). -/
inductive PssAlg | Sha1 | Sha256 | Sha384 | Sha512
deriving DecidableEq

/-- RSA OAEP algorithms (`rsa::oaep::Algorithm`). -/
inductive OaepAlg | Sha1 | Sha256 | Sha384 | Sha512
deriving DecidableEq

/-- RSA algorithm family (`rsa::Algorithm`). -/
inductive RsaAlg
  | Pkcs1 (a : Pkcs1Alg)
  | Pss (a : PssAlg)
  | Oaep (a : OaepAlg)
deriving DecidableEq

/-- Asymmetric key algorithms (`asymmetric::Algorithm`). -/
inductive AsymAlg
  | Rsa2048 | Rsa3072 | Rsa4096
  | EcP256 | EcP384 | EcP521 | EcK256
  | EcBp256 | EcBp384 | EcBp512
  | Ed25519 | EcP224
deriving DecidableEq

/-- HMAC algorithms (`hmac::Algorithm`). -/
inductive HmacAlg | Sha1 | Sha256 | Sha384 | Sha512
deriving DecidableEq

/-- ECDSA signature algorithms (`ecdsa::Algorithm`). -/
inductive EcdsaAlg | Sha1 | Sha256 | Sha384 | Sha512
deriving DecidableEq

/-- AES-CCM wrap key algorithms (`wrap::Algorithm`). -/
inductive WrapAlg | Aes128Ccm | Aes192Ccm | Aes256Ccm
deriving DecidableEq

/-- Opaque object algorithms (`opaque::Algorithm`). -/
inductive OpaqueAlg | Data | X509Certificate
deriving DecidableEq

/-- MGF1 digest algorithms (`rsa::mgf::Algorithm`). -/
inductive MgfAlg | Sha1 | Sha256 | Sha384 | Sha512
deriving DecidableEq

/-- Template algorithms (`template::Algorithm`). -/
inductive TemplateAlg | Ssh
deriving DecidableEq

/-- Yubico OTP algorithms (`otp::Algorithm`). -/
inductive OtpAlg | Aes128 | Aes192 | Aes256
deriving DecidableEq

/-- Authentication key algorithms (`authentication::Algorithm`). -/
inductive AuthAlg | YubicoAes
deriving DecidableEq

/-- ECDH algorithms (`ecdh::Algorithm`). -/
inductive EcdhAlg | Ecdh
deriving DecidableEq

/-- The closed algorithm enumeration (`Algorithm` in the source). -/
inductive Algorithm
  | Rsa (a : RsaAlg)
  | Asymmetric (a : AsymAlg)
  | Hmac (a : HmacAlg)
  | Ecdsa (a : EcdsaAlg)
  | Ecdh (a : EcdhAlg)
  | Wrap (a : WrapAlg)
  | Opaque (a : OpaqueAlg)
  | Mgf (a : MgfAlg)
  | Template (a : TemplateAlg)
  | YubicoOtp (a : OtpAlg)
  | Authentication (a : AuthAlg)
deriving DecidableEq

/-- Fixed 1-byte algorithm tags from the YubiHSM2 public documentation
(spec section 6: the implementation round-trips them exactly). -/
def Algorithm.to_u8 : Algorithm → Nat
  | .Rsa (.Pkcs1 .Sha1) => 1
  | .Rsa (.Pkcs1 .Sha256) => 2
  | .Rsa (.Pkcs1 .Sha384) => 3
  | .Rsa (.Pkcs1 .Sha512) => 4
  | .Rsa (.Pss .Sha1) => 5
  | .Rsa (.Pss .Sha256) => 6
  | .Rsa (.Pss .Sha384) => 7
  | .Rsa (.Pss .Sha512) => 8
  | .Asymmetric .Rsa2048 => 9
  | .Asymmetric .Rsa3072 => 10
  | .Asymmetric .Rsa4096 => 11
  | .Asymmetric .EcP256 => 12
  | .Asymmetric .EcP384 => 13
  | .Asymmetric .EcP521 => 14
  | .Asymmetric .EcK256 => 15
  | .Asymmetric .EcBp256 => 16
  | .Asymmetric .EcBp384 => 17
  | .Asymmetric .EcBp512 => 18
  | .Hmac .Sha1 => 19
  | .Hmac .Sha256 => 20
  | .Hmac .Sha384 => 21
  | .Hmac .Sha512 => 22
  | .Ecdsa .Sha1 => 23
  | .Ecdh .Ecdh => 24
  | .Rsa (.Oaep .Sha1) => 25
  | .Rsa (.Oaep .Sha256) => 26
  | .Rsa (.Oaep .Sha384) => 27
  | .Rsa (.Oaep .Sha512) => 28
  | .Wrap .Aes128Ccm => 29
  | .Opaque .Data => 30
  | .Opaque .X509Certificate => 31
  | .Mgf .Sha1 => 32
  | .Mgf .Sha256 => 33
  | .Mgf .Sha384 => 34
  | .Mgf .Sha512 => 35
  | .Template .Ssh => 36
  | .YubicoOtp .Aes128 => 37
  | .Authentication .YubicoAes => 38
  | .YubicoOtp .Aes192 => 39
  | .YubicoOtp .Aes256 => 40
  | .Wrap .Aes192Ccm => 41
  | .Wrap .Aes256Ccm => 42
  | .Ecdsa .Sha256 => 43
  | .Ecdsa .Sha384 => 44
  | .Ecdsa .Sha512 => 45
  | .Asymmetric .Ed25519 => 46
  | .Asymmetric .EcP224 => 47

/-- Inverse of `Algorithm.to_u8` on valid tags. -/
def Algorithm.from_u8 : Nat → Option Algorithm
  | 1 => some (.Rsa (.Pkcs1 .Sha1))
  | 2 => some (.Rsa (.Pkcs1 .Sha256))
  | 3 => some (.Rsa (.Pkcs1 .Sha384))
  | 4 => some (.Rsa (.Pkcs1 .Sha512))
  | 5 => some (.Rsa (.Pss .Sha1))
  | 6 => some (.Rsa (.Pss .Sha256))
  | 7 => some (.Rsa (.Pss .Sha384))
  | 8 => some (.Rsa (.Pss .Sha512))
  | 9 => some (.Asymmetric .Rsa2048)
  | 10 => some (.Asymmetric .Rsa3072)
  | 11 => some (.Asymmetric .Rsa4096)
  | 12 => some (.Asymmetric .EcP256)
  | 13 => some (.Asymmetric .EcP384)
  | 14 => some (.Asymmetric .EcP521)
  | 15 => some (.Asymmetric .EcK256)
  | 16 => some (.Asymmetric .EcBp256)
  | 17 => some (.Asymmetric .EcBp384)
  | 18 => some (.Asymmetric .EcBp512)
  | 19 => some (.Hmac .Sha1)
  | 20 => some (.Hmac .Sha256)
  | 21 => some (.Hmac .Sha384)
  | 22 => some (.Hmac .Sha512)
  | 23 => some (.Ecdsa .Sha1)
  | 24 => some (.Ecdh .Ecdh)
  | 25 => some (.Rsa (.Oaep .Sha1))
  | 26 => some (.Rsa (.Oaep .Sha256))
  | 27 => some (.Rsa (.Oaep .Sha384))
  | 28 => some (.Rsa (.Oaep .Sha512))
  | 29 => some (.Wrap .Aes128Ccm)
  | 30 => some (.Opaque .Data)
  | 31 => some (.Opaque .X509Certificate)
  | 32 => some (.Mgf .Sha1)
  | 33 => some (.Mgf .Sha256)
  | 34 => some (.Mgf .Sha384)
  | 35 => some (.Mgf .Sha512)
  | 36 => some (.Template .Ssh)
  | 37 => some (.YubicoOtp .Aes128)
  | 38 => some (.Authentication .YubicoAes)
  | 39 => some (.YubicoOtp .Aes192)
  | 40 => some (.YubicoOtp .Aes256)
  | 41 => some (.Wrap .Aes192Ccm)
  | 42 => some (.Wrap .Aes256Ccm)
  | 43 => some (.Ecdsa .Sha256)
  | 44 => some (.Ecdsa .Sha384)
  | 45 => some (.Ecdsa .Sha512)
  | 46 => some (.Asymmetric .Ed25519)
  | 47 => some (.Asymmetric .EcP224)
  | _ => none

/-- Projection of an algorithm onto the asymmetric family
(`Algorithm::asymmetric()` in the source). -/
def Algorithm.asymmetric : Algorithm → Option AsymAlg
  | .Asymmetric a => some a
  | _ => none

/-- Metadata of a stored object (`object::Info`): id, type, algorithm, 40-byte
label, capability masks, domain mask, origin and sequence counter
(spec section 3). -/
structure ObjectInfo where
  object_id : Nat
  object_type : ObjType
  algorithm : Algorithm
  label : List Nat
  capabilities : Nat
  delegated_capabilities : Nat
  domains : Nat
  origin : Origin
  sequence : Nat
deriving DecidableEq

/-- Typed key material of a stored object (`mockhsm::object::Payload`): a
tagged union with one variant per algorithm family (spec section 3); key
material is kept as raw bytes. -/
inductive Payload
  | RsaKey (material : List Nat)
  | EcdsaNistP256 (material : List Nat)
  | EcdsaSecp256k1 (material : List Nat)
  | EcdsaNistP384 (material : List Nat)
  | EcdsaNistP521 (material : List Nat)
  | Ed25519Key (material : List Nat)
  | HmacKey (alg : HmacAlg) (key : List Nat)
  | WrapKey (alg : WrapAlg) (key : List Nat)
  | AuthenticationKey (enc_key mac_key : List Nat)
  | OpaqueData (alg : OpaqueAlg) (data : List Nat)
deriving DecidableEq

/-- Modelled from the spec: per-algorithm payload serialization
(`Payload::to_bytes` of the object store module, which is not among the staged
sources).  Spec section 4.3: the wrap plaintext is `info_header ||
payload_bytes`; section 3 fixes an authentication key as two 16-byte session
keys, serialized as their concatenation. -/
def Payload.to_bytes : Payload → List Nat
  | .RsaKey m => m
  | .EcdsaNistP256 m => m
  | .EcdsaSecp256k1 m => m
  | .EcdsaNistP384 m => m
  | .EcdsaNistP521 m => m
  | .Ed25519Key m => m
  | .HmacKey _ k => k
  | .WrapKey _ k => k
  | .AuthenticationKey e m => e ++ m
  | .OpaqueData _ d => d

/-- Modelled from the spec: reconstruction of a payload from raw bytes keyed
by the object's algorithm (spec section 4.3, `unwrap_obj`: "reconstruct the
payload by algorithm"; the object store module is not among the staged
sources).  Algorithms the mock stores no payload variant for yield `none`. -/
def payloadFromBytes (alg : Algorithm) (bytes : List Nat) : Option Payload
  :=
  match alg with
  | .Asymmetric .Rsa2048 => some (.RsaKey bytes)
  | .Asymmetric .Rsa3072 => some (.RsaKey bytes)
  | .Asymmetric .Rsa4096 => some (.RsaKey bytes)
  | .Asymmetric .EcP256 => some (.EcdsaNistP256 bytes)
  | .Asymmetric .EcK256 => some (.EcdsaSecp256k1 bytes)
  | .Asymmetric .EcP384 => some (.EcdsaNistP384 bytes)
  | .Asymmetric .EcP521 => some (.EcdsaNistP521 bytes)
  | .Asymmetric .Ed25519 => some (.Ed25519Key bytes)
  | .Hmac h => some (.HmacKey h bytes)
  | .Wrap w => some (.WrapKey w bytes)
  | .Authentication .YubicoAes =>
      if bytes.length = 32 then
        some (.AuthenticationKey (bytes.take 16) (bytes.drop 16))
      else none
  | .Opaque o => some (.OpaqueData o bytes)
  | _ => none

/-- Consistency of a payload variant with the object's algorithm tag (spec
section 3 invariant: the algorithm is consistent with the object type; for
authentication keys the two session keys are 16 bytes each). -/
def payloadMatches (alg : Algorithm) (p : Payload) : Bool :=
  match alg, p with
  | .Asymmetric .Rsa2048, .RsaKey _ => true
  | .Asymmetric .Rsa3072, .RsaKey _ => true
  | .Asymmetric .Rsa4096, .RsaKey _ => true
  | .Asymmetric .EcP256, .EcdsaNistP256 _ => true
  | .Asymmetric .EcK256, .EcdsaSecp256k1 _ => true
  | .Asymmetric .EcP384, .EcdsaNistP384 _ => true
  | .Asymmetric .EcP521, .EcdsaNistP521 _ => true
  | .Asymmetric .Ed25519, .Ed25519Key _ => true
  | .Hmac h, .HmacKey h' _ => decide (h = h')
  | .Wrap w, .WrapKey w' _ => decide (w = w')
  | .Authentication .YubicoAes, .AuthenticationKey e m =>
      decide (e.length = 16 ∧ m.length = 16)
  | .Opaque o, .OpaqueData o' _ => decide (o = o')
  | _, _ => false

/-- A stored object: its metadata and its typed payload
(`mockhsm::object::Object`). -/
structure Object where
  object_info : ObjectInfo
  payload : Payload
deriving DecidableEq

/-- The object's algorithm (`Object::algorithm()` in the source). -/
def Object.algorithm (o : Object) : Algorithm := o.object_info.algorithm

/-- The object's info (`Object::info()` in the source). -/
def Object.info (o : Object) : ObjectInfo := o.object_info

/-- Bitmask containment: `mask.contains(bits)` of the `bitflags` types used
for `Capability` and `Domain` holds when every bit of `bits` is set in
`mask`. -/
def bitContains (mask bits : Nat) : Bool := decide (Nat.land mask bits = bits)

/-- Audit options (`AuditOption`): per-command audit setting values. -/
inductive AuditOption
  | Off
  | On
  | Fix
deriving DecidableEq

/-- Byte value of an audit option (`AuditOption::to_u8`). -/
def AuditOption.to_u8 : AuditOption → Nat
  | .Off => 0
  | .On => 1
  | .Fix => 2

/-- Inverse of `AuditOption.to_u8` (`AuditOption::from_u8`). -/
def AuditOption.from_u8 : Nat → Option AuditOption
  | 0 => some .Off
  | 1 => some .On
  | 2 => some .Fix
  | _ => none

/-- Modelled from the spec: the object store is a `(id, type) → object` map
whose iteration order is insertion order (spec section 4.3, "Tie-breaking:
list order is insertion order"); the store module is not among the staged
sources.  It is embedded as the list of objects in insertion order, unique on
`(id, type)` by construction of `put`/`remove`. -/
abbrev Store := List Object

/-- Lookup by `(id, type)` (spec section 4.3, `get`). -/
def Store.get (store : Store) (id : Nat) (ty : ObjType) : Option Object :=
  List.find?
    (fun o => decide (o.object_info.object_id = id ∧ o.object_info.object_type = ty))
    store

/-- Removal by `(id, type)` (spec section 4.3, `remove`): the removed object,
when present, and the remaining store. -/
def Store.removeObj (store : Store) (id : Nat) (ty : ObjType) :
    Option Object × Store :=
  match Store.get store id ty with
  | none => (none, store)
  | some o =>
      (some o,
        List.filter
          (fun x =>
            !(decide (x.object_info.object_id = id ∧ x.object_info.object_type = ty)))
          store)

/-- Insertion (spec section 4.3, `put`): an existing object with the same
`(id, type)` is overwritten. -/
def Store.putObj (store : Store) (o : Object) : Store :=
  List.filter
    (fun x =>
      !(decide (x.object_info.object_id = o.object_info.object_id ∧
          x.object_info.object_type = o.object_info.object_type)))
    store ++ [o]

/-- A session table entry, modelled only as far as the claims need: the
session id and an abstract channel value (its derived keys, counter and MAC
chain live in the secure-channel module, which is not among the staged
sources). -/
structure SessionEntry where
  id : Nat
  channel : List Nat
deriving DecidableEq

/-- The emulator's single shared state (`mockhsm::state::State`): the object
store, the session table and the audit option settings (spec sections 3 and
4.6). -/
structure State where
  objects : Store
  sessions : List SessionEntry
  command_audit_options : List (Nat × AuditOption)
  force_audit : AuditOption
  fips : AuditOption
deriving DecidableEq

/-- Big-endian byte encoding of `n` in `w` bytes (modulo `256 ^ w`). -/
def beBytes : Nat → Nat → List Nat
  | 0, _ => []
  | w + 1, n => beBytes w (n / 256) ++ [n % 256]

/-- Value of a big-endian byte string. -/
def beVal (bs : List Nat) : Nat := bs.foldl (fun acc b => acc * 256 + b) 0

/-- Consume `w` bytes as a big-endian integer. -/
def readBE (w : Nat) (bs : List Nat) : Option (Nat × List Nat) :=
  if w ≤ bs.length then some (beVal (bs.take w), bs.drop w) else none

/-- Consume `w` raw bytes. -/
def readBytes (w : Nat) (bs : List Nat) : Option (List Nat × List Nat) :=
  if w ≤ bs.length then some (bs.take w, bs.drop w) else none

/-- Consume one byte. -/
def readByte (bs : List Nat) : Option (Nat × List Nat) :=
  match bs with
  | [] => none
  | b :: r => some (b, r)

/-- Big-endian 2-byte encoding of a 16-bit value. -/
def encU16 (n : Nat) : List Nat := beBytes 2 n

/-- Digest selection for the RSA signing and decryption primitives. -/
inductive DigestAlg | Sha1 | Sha256 | Sha384 | Sha512
deriving DecidableEq

/-- Model tag byte of a digest selection (used only inside the primitive
models below). -/
def DigestAlg.to_u8 : DigestAlg → Nat
  | .Sha1 => 1
  | .Sha256 => 2
  | .Sha384 => 3
  | .Sha512 => 4

/-- Output length in bytes of each digest. -/
def DigestAlg.len : DigestAlg → Nat
  | .Sha1 => 20
  | .Sha256 => 32
  | .Sha384 => 48
  | .Sha512 => 64

/-- The digest a MGF1 algorithm tag selects. -/
def MgfAlg.digest : MgfAlg → DigestAlg
  | .Sha1 => .Sha1
  | .Sha256 => .Sha256
  | .Sha384 => .Sha384
  | .Sha512 => .Sha512

/-- Modelled from the spec: HMAC-SHA256 (external `hmac`/`sha2` crates).  The
emulator treats it as a keyed function from arbitrary key and message bytes to
a 32-byte tag; this executable stand-in has that interface.  Every claim
about the HMAC handlers is relational in the primitive and does not depend on
its internals. -/
def hmacSha256 (key data : List Nat) : List Nat :=
  (List.range 32).map (fun i =>
    (key.foldl (fun a b => a * 131 + b + 3) (i + 11) +
      data.foldl (fun a b => a * 251 + b + 7) (i * 17 + data.length)) % 256)

/-- Modelled from the spec: constant-time byte-slice comparison (external
`subtle` crate, `ConstantTimeEq::ct_eq` followed by `Choice::unwrap_u8`).
Slices of unequal length compare unequal; equal-length slices are compared by
accumulating the OR of the XOR of every byte pair, with no short-circuit, and
the result byte is 1 exactly when the accumulator is zero. -/
def ctEq (a b : List Nat) : Nat :=
  if a.length = b.length then
    if (List.zipWith Nat.xor a b).foldl Nat.lor 0 = 0 then 1 else 0
  else 0

/-- Modelled from the spec: RSASSA-PKCS#1 v1.5 prehash signing (external
`rsa` crate).  An executable stand-in recording which digest was dispatched,
the key and the prehash; the claims about the handler concern only its
dispatch and error structure. -/
def rsaPkcs1Sign (d : DigestAlg) (key digest : List Nat) : List Nat :=
  d.to_u8 :: (key ++ digest)

/-- Modelled from the spec: RSASSA-PSS prehash signing with MGF1 digest `d`
(external `rsa` crate); executable stand-in as for `rsaPkcs1Sign`. -/
def rsaPssSign (d : DigestAlg) (key digest : List Nat) : List Nat :=
  (d.to_u8 + 16) :: (key ++ digest)

/-- Modelled from the spec: RSA-OAEP decryption with a caller-supplied label
hash (external `rsa` crate), which can fail on a padding error.  Executable
stand-in: a ciphertext decrypts exactly when its first byte is zero (echoing
OAEP's leading-zero check); the handler claims concern only the success and
failure branches, not which ciphertexts fail. -/
def oaepDecrypt (d : DigestAlg) (labelHash key ct : List Nat) :
    Option (List Nat) :=
  match d, labelHash, key, ct with
  | _, _, _, 0 :: rest => some rest
  | _, _, _, _ => none

/-- Modelled from the spec: ECDSA prehash signing in DER form (external
elliptic-curve crates); executable stand-in tagged by the curve's payload
variant tag. -/
def ecdsaSign (curveTag : Nat) (key digest : List Nat) : List Nat :=
  curveTag :: (key ++ digest)

/-- Modelled from the spec: Ed25519 signing, a raw 64-byte signature
(external `ed25519-dalek` style signer); executable stand-in of that
length. -/
def ed25519Sign (key msg : List Nat) : List Nat :=
  (List.range 64).map (fun i =>
    (key.foldl (fun a b => a * 131 + b) i +
      msg.foldl (fun a b => a * 137 + b) (i * 13)) % 256)

/-- Modelled from the spec: the keystream of the AES-CCM wrap cipher
(external `aes`/`ccm` crates; spec section 4.5: 13-byte nonce, 16-byte tag).
The model is a stream cipher derived from key and nonce plus an
authentication tag: faithful to the interface of authenticated encryption
(decryption inverts encryption under the same key and nonce and checks the
tag), not to the AES internals, which the claims do not touch. -/
def ccmKeystream (key nonce : List Nat) (len : Nat) : List Nat :=
  (List.range len).map (fun i =>
    (key.foldl (fun a b => a * 131 + b) 5 +
      nonce.foldl (fun a b => a * 137 + b) 9 + i * 151) % 256)

/-- The 16-byte authentication tag of the AES-CCM model. -/
def ccmTag (key nonce pt : List Nat) : List Nat :=
  (List.range 16).map (fun i =>
    (key.foldl (fun a b => a * 131 + b) 3 +
      nonce.foldl (fun a b => a * 139 + b) 7 +
      pt.foldl (fun a b => a * 149 + b) 11 + i * 157) % 256)

/-- Byte-wise XOR of two equal-length byte strings. -/
def xorBytes (a b : List Nat) : List Nat := List.zipWith Nat.xor a b

/-- AES-CCM model encryption: `ciphertext || tag` (spec section 4.3,
`wrap_obj`: "encrypt with AES-CCM using the wrap key and 13-byte nonce,
16-byte tag; return ciphertext || tag"). -/
def ccmSeal (key nonce pt : List Nat) : List Nat :=
  xorBytes pt (ccmKeystream key nonce pt.length) ++ ccmTag key nonce pt

/-- AES-CCM model decryption: split off the 16-byte tag, invert the
keystream, and fail unless the tag authenticates. -/
def ccmOpen (key nonce ct : List Nat) : Option (List Nat) :=
  if 16 ≤ ct.length then
    let body := ct.take (ct.length - 16)
    let tag := ct.drop (ct.length - 16)
    let pt := xorBytes body (ccmKeystream key nonce body.length)
    if tag = ccmTag key nonce pt then some pt else none
  else none

/-- Modelled from the spec: the wrap plaintext's info header (spec section
4.3: the target object is serialized as `info_header || payload_bytes`; the
store module is not among the staged sources).  Fixed-width fields in the wire
conventions of section 4.1: 8-byte capability masks, 2-byte id and domain
masks, 1-byte type, algorithm, sequence and origin tags, 40-byte label. -/
def serializeInfo (info : ObjectInfo) : List Nat :=
  beBytes 8 info.capabilities ++ encU16 info.object_id ++ encU16 info.domains ++
    [info.object_type.to_u8] ++ [info.algorithm.to_u8] ++ [info.sequence] ++
    [info.origin.to_u8] ++ info.label ++ beBytes 8 info.delegated_capabilities

/-- Inverse of `serializeInfo`: decode the info header, returning the header
and the remaining payload bytes. -/
def deserializeInfo (bytes : List Nat) : Option (ObjectInfo × List Nat) :=
  match readBE 8 bytes with
  | none => none
  | some (caps, r1) =>
    match readBE 2 r1 with
    | none => none
    | some (oid, r2) =>
      match readBE 2 r2 with
      | none => none
      | some (doms, r3) =>
        match readByte r3 with
        | none => none
        | some (tyb, r4) =>
          match readByte r4 with
          | none => none
          | some (algb, r5) =>
            match readByte r5 with
            | none => none
            | some (seq, r6) =>
              match readByte r6 with
              | none => none
              | some (orb, r7) =>
                match readBytes 40 r7 with
                | none => none
                | some (label, r8) =>
                  match readBE 8 r8 with
                  | none => none
                  | some (deleg, rest) =>
                    match ObjType.from_u8 tyb, Algorithm.from_u8 algb,
                        Origin.from_u8 orb with
                    | some ty, some alg, some org =>
                        some (⟨oid, ty, alg, label, caps, deleg, doms, org, seq⟩,
                          rest)
                    | _, _, _ => none

/-- Failure cases of the wrap and unwrap store operations (spec section 4.3:
wrap "fails if wrap key missing, wrong type, capability missing, or target
object missing"; unwrap additionally on decryption or decoding failure). -/
inductive WrapError
  | KeyNotFound
  | NotAWrapKey
  | CapabilityMissing
  | TargetNotFound
  | DecryptFailed
  | MalformedPlaintext
deriving DecidableEq

/-- Modelled from the spec: `wrap_obj(wrap_key_id, obj_id, obj_type, nonce)`
of the object store (spec section 4.3; the store module is not among the
staged sources).  Looks up the wrap key, serializes the target as
`info_header || payload_bytes`, and seals it with AES-CCM; the capability
check follows `src/commands/generate_wrap_key.rs`: the wrap key's delegated
capabilities are the capability bits an object may carry when exported or
imported under it. -/
def wrap_obj (store : Store) (wrap_key_id obj_id : Nat) (obj_ty : ObjType)
    (nonce : List Nat) : Except WrapError (List Nat) :=
  match Store.get store wrap_key_id .WrapKey with
  | none => .error .KeyNotFound
  | some wk =>
    match wk.payload with
    | .WrapKey _ wkey =>
      match Store.get store obj_id obj_ty with
      | none => .error .TargetNotFound
      | some o =>
        if bitContains wk.object_info.delegated_capabilities
            o.object_info.capabilities then
          .ok (ccmSeal wkey nonce (serializeInfo o.object_info ++ o.payload.to_bytes))
        else .error .CapabilityMissing
    | _ => .error .NotAWrapKey

/-- Modelled from the spec: `unwrap_obj(wrap_key_id, nonce, ciphertext)`,
the inverse of `wrap_obj` (spec section 4.3): after successful decryption,
decode the info header, reconstruct the payload by algorithm, and insert with
`origin = Wrapped`.  Returns the updated store and the inserted object's
info. -/
def unwrap_obj (store : Store) (wrap_key_id : Nat) (nonce ct : List Nat) :
    Except WrapError (Store × ObjectInfo) :=
  match Store.get store wrap_key_id .WrapKey with
  | none => .error .KeyNotFound
  | some wk =>
    match wk.payload with
    | .WrapKey _ wkey =>
      match ccmOpen wkey nonce ct with
      | none => .error .DecryptFailed
      | some pt =>
        match deserializeInfo pt with
        | none => .error .MalformedPlaintext
        | some (info, payload_bytes) =>
          match payloadFromBytes info.algorithm payload_bytes with
          | none => .error .MalformedPlaintext
          | some p =>
            if bitContains wk.object_info.delegated_capabilities
                info.capabilities then
              (.ok (Store.putObj store ⟨{ info with origin := .Wrapped }, p⟩,
                { info with origin := .Wrapped }))
            else .error .CapabilityMissing
    | _ => .error .NotAWrapKey

/-- Device information report data (`device::Info`); the algorithm catalog
vector of the mock report is a fixed literal no claim depends on and is left
out of the model. -/
structure DeviceInfoData where
  major_version : Nat
  minor_version : Nat
  build_version : Nat
  serial_number : String
  log_store_capacity : Nat
  log_store_used : Nat
deriving DecidableEq

/-- Storage status report data (`device::StorageInfo`). -/
structure StorageInfoData where
  total_records : Nat
  free_records : Nat
  total_pages : Nat
  free_pages : Nat
  page_size : Nat
deriving DecidableEq

/-- A point on the X.509 validity timeline (`x509_cert::time::Time`;
`infinity` is `Time::INFINITY`). -/
inductive CertTime
  | moment (t : Nat)
  | infinity
deriving DecidableEq

/-- The attestation extensions minted by `AttestationProfile::build_extensions`
(the custom-OID extension types live in `src/attestation.rs`'s `pkix`
submodule): firmware version, device serial, origin, domains, capabilities,
object id and label. -/
inductive AttExtension
  | FirmwareVersion (major minor build : Nat)
  | SerialExt (serial : String)
  | OriginExt (origin : Origin)
  | DomainExt (domains : Nat)
  | CapabilityExt (capabilities : Nat)
  | ObjectIdExt (id : Nat)
  | LabelExt (label : List Nat)
deriving DecidableEq

/-- The X.509 attestation certificate as minted by
`sign_attestation_certificate`, modelled structurally (the DER encoding lives
in the external `x509-cert` crate): subject and issuer names, random serial,
validity window, subject public key info, extension list and signature. -/
structure MockCertificate where
  subject : String
  issuer : String
  serial_random : Nat
  not_before : CertTime
  not_after : CertTime
  spki : List Nat
  extensions : List AttExtension
  signature : List Nat
deriving DecidableEq

/-- A `ListObjects` response entry (`object::Entry`). -/
structure Entry where
  object_id : Nat
  object_type : ObjType
  sequence : Nat
deriving DecidableEq

/-- `object::Entry::from(&Object)`. -/
def Entry.ofObject (o : Object) : Entry :=
  ⟨o.object_info.object_id, o.object_info.object_type, o.object_info.sequence⟩

/-- The typed responses the handlers serialize (one constructor per
`...Response` type in the source; serialization to wire bytes is not under
test and the responses are kept structured). -/
inductive RespData
  | BlinkDeviceResp
  | CloseSessionResp
  | DeleteObjectResp
  | DeviceInfoResp (info : DeviceInfoData)
  | EchoResp (data : List Nat)
  | ExportWrappedResp (nonce : List Nat) (ciphertext : List Nat)
  | GenAsymmetricKeyResp (key_id : Nat)
  | GenHmacKeyResp (key_id : Nat)
  | GenWrapKeyResp (key_id : Nat)
  | LogEntriesResp (unlogged_boot unlogged_auth num_entries : Nat)
  | GetObjectInfoResp (info : ObjectInfo)
  | GetOpaqueResp (data : List Nat)
  | GetOptionResp (results : List Nat)
  | GetPseudoRandomResp (bytes : List Nat)
  | GetPublicKeyResp (algorithm : AsymAlg) (bytes : List Nat)
  | SignHmacResp (tag : List Nat)
  | ImportWrappedResp (object_type : ObjType) (object_id : Nat)
  | ListObjectsResp (entries : List Entry)
  | PutAsymmetricKeyResp (key_id : Nat)
  | PutAuthenticationKeyResp (key_id : Nat)
  | PutHmacKeyResp (key_id : Nat)
  | PutOpaqueResp (object_id : Nat)
  | PutOptionResp
  | PutWrapKeyResp (key_id : Nat)
  | ResetDeviceResp (code : Nat)
  | SetLogIndexResp
  | SignEcdsaResp (sig : List Nat)
  | SignEddsaResp (sig : List Nat)
  | GetStorageInfoResp (info : StorageInfoData)
  | VerifyHmacResp (is_ok : Nat)
  | SignPssResp (sig : List Nat)
  | SignPkcs1Resp (sig : List Nat)
  | AttestationCertificateResp (cert : MockCertificate)
  | DecryptOaepResp (plaintext : List Nat)
deriving DecidableEq

/-- A handler's result (`response::Message`): either a serialized typed
response or a device error routed through the response-error envelope. -/
inductive RespMessage
  | success (data : RespData)
  | deviceError (kind : DeviceErrorKind)
deriving DecidableEq

/-- Consume a big-endian `u16` (object and key ids on the wire). -/
def parseU16 (d : List Nat) : Option (Nat × List Nat) :=
  match d with
  | a :: b :: rest => some (a * 256 + b, rest)
  | _ => none

/-- Deserialize an object handle: `object_id: u16 | object_type: u8`
(`GetObjectInfoCommand` / `DeleteObjectCommand`). -/
def parseObjectHandle (d : List Nat) : Option (Nat × ObjType) :=
  match d with
  | a :: b :: t :: _ =>
    match ObjType.from_u8 t with
    | some ty => some (a * 256 + b, ty)
    | none => none
  | _ => none

/-- Inverse of `MgfAlg`'s wire tag (values 32–35 of the algorithm
catalog). -/
def MgfAlg.from_u8 : Nat → Option MgfAlg
  | 32 => some .Sha1
  | 33 => some .Sha256
  | 34 => some .Sha384
  | 35 => some .Sha512
  | _ => none

/-- Parsed `DecryptOaepCommand`: key id, MGF1 algorithm, ciphertext and the
precomputed label hash (spec section 4.5: the input carries a label hash, not
the label; it is the digest-length tail of the body). -/
structure DecryptOaepCmd where
  key_id : Nat
  mgf1_hash_alg : MgfAlg
  data : List Nat
  label_hash : List Nat
deriving DecidableEq

/-- Deserialize a `DecryptOaepCommand`. -/
def parseDecryptOaep (d : List Nat) : Option DecryptOaepCmd :=
  match parseU16 d with
  | none => none
  | some (kid, r1) =>
    match readByte r1 with
    | none => none
    | some (mb, r2) =>
      match MgfAlg.from_u8 mb with
      | none => none
      | some m =>
        let h := (MgfAlg.digest m).len
        if h ≤ r2.length then
          some ⟨kid, m, r2.take (r2.length - h), r2.drop (r2.length - h)⟩
        else none

/-- Deserialize a `SignPssCommand`: key id, MGF1 algorithm, digest. -/
def parseSignPss (d : List Nat) : Option (Nat × MgfAlg × List Nat) :=
  match parseU16 d with
  | none => none
  | some (kid, r1) =>
    match readByte r1 with
    | none => none
    | some (mb, digest) =>
      match MgfAlg.from_u8 mb with
      | none => none
      | some m => some (kid, m, digest)

/-- Deserialize a `SignAttestationCertificateCommand`: key id and attestation
key id. -/
def parseSignAttestation (d : List Nat) : Option (Nat × Nat) :=
  match parseU16 d with
  | none => none
  | some (kid, r1) =>
    match parseU16 r1 with
    | none => none
    | some (akid, _) => some (kid, akid)

/-- Deserialize an `ExportWrappedCommand`: wrap key id, object type, object
id. -/
def parseExportWrapped (d : List Nat) : Option (Nat × ObjType × Nat) :=
  match parseU16 d with
  | none => none
  | some (wkid, r1) =>
    match readByte r1 with
    | none => none
    | some (t, r2) =>
      match ObjType.from_u8 t with
      | none => none
      | some ty =>
        match parseU16 r2 with
        | none => none
        | some (oid, _) => some (wkid, ty, oid)

/-- Deserialize an `ImportWrappedCommand`: wrap key id, 13-byte nonce,
ciphertext. -/
def parseImportWrapped (d : List Nat) : Option (Nat × List Nat × List Nat) :=
  match parseU16 d with
  | none => none
  | some (wkid, r1) =>
    if 13 ≤ r1.length then some (wkid, r1.take 13, r1.drop 13) else none

/-- Common key generation / import parameters (`GenerateKeyParams` /
`object::import::Params`): key id, 40-byte label, domain mask, capability
mask, algorithm. -/
structure GenerateKeyParams where
  key_id : Nat
  label : List Nat
  domains : Nat
  capabilities : Nat
  algorithm : Algorithm
deriving DecidableEq

/-- Deserialize `GenerateKeyParams` and return the remaining bytes. -/
def parseKeyParams (d : List Nat) : Option (GenerateKeyParams × List Nat) :=
  match parseU16 d with
  | none => none
  | some (kid, r1) =>
    match readBytes 40 r1 with
    | none => none
    | some (label, r2) =>
      match readBE 2 r2 with
      | none => none
      | some (doms, r3) =>
        match readBE 8 r3 with
        | none => none
        | some (caps, r4) =>
          match readByte r4 with
          | none => none
          | some (ab, rest) =>
            match Algorithm.from_u8 ab with
            | none => none
            | some alg => some (⟨kid, label, doms, caps, alg⟩, rest)

/-- Audit setting tags (`AuditTag`). -/
inductive AuditTag
  | Command
  | Force
  | Fips
deriving DecidableEq

/-- Wire tag of an audit setting tag. -/
def AuditTag.from_u8 : Nat → Option AuditTag
  | 1 => some .Force
  | 3 => some .Command
  | 5 => some .Fips
  | _ => none

/-- Deserialize a `SetOptionCommand`: tag, length, value bytes. -/
def parseSetOption (d : List Nat) : Option (AuditTag × Nat × List Nat) :=
  match readByte d with
  | none => none
  | some (tb, r1) =>
    match AuditTag.from_u8 tb with
    | none => none
    | some tag =>
      match readBE 2 r1 with
      | none => none
      | some (len, value) => some (tag, len, value)

/-- Deserialize a `GetOptionCommand`: the tag byte. -/
def parseGetOption (d : List Nat) : Option AuditTag :=
  match readByte d with
  | none => none
  | some (tb, _) => AuditTag.from_u8 tb

/-- `ListObjects` filters (`object::Filter`): Algorithm, Capabilities,
Domains, Label, Id, Type. -/
inductive Filter
  | Algorithm (alg : Algorithm)
  | Capabilities (capabilities : Nat)
  | Domains (domains : Nat)
  | Label (label : List Nat)
  | Id (id : Nat)
  | TypeFilter (ty : ObjType)
deriving DecidableEq

/-- Whether one filter accepts an object (`list_objects`, the per-filter
match: Algorithm, Label, Id and Type by equality; Capabilities and Domains by
bitmask containment). -/
def filterMatches (o : Object) (f : Filter) : Bool :=
  match f with
  | .Algorithm alg => decide (o.info.algorithm = alg)
  | .Capabilities caps => bitContains o.info.capabilities caps
  | .Domains doms => bitContains o.info.domains doms
  | .Label label => decide (o.info.label = label)
  | .Id id => decide (o.info.object_id = id)
  | .TypeFilter ty => decide (o.info.object_type = ty)

/-- Deserialize the filter sequence of a `ListObjectsCommand`
(`object::Filter::deserialize` in a loop until the cursor is exhausted): each
filter is a tag byte followed by its fixed-width value (id `u16`, type `u8`,
domains `u16`, capabilities `u64`, algorithm `u8`, label 40 bytes). -/
def parseFiltersFuel : Nat → List Nat → Option (List Filter)
  | _, [] => some []
  | 0, _ :: _ => none
  | fuel + 1, 1 :: a :: b :: rest =>
      (parseFiltersFuel fuel rest).map (fun fs => Filter.Id (a * 256 + b) :: fs)
  | fuel + 1, 2 :: t :: rest =>
      match ObjType.from_u8 t with
      | some ty =>
          (parseFiltersFuel fuel rest).map (fun fs => Filter.TypeFilter ty :: fs)
      | none => none
  | fuel + 1, 3 :: a :: b :: rest =>
      (parseFiltersFuel fuel rest).map (fun fs => Filter.Domains (a * 256 + b) :: fs)
  | fuel + 1, 4 :: c1 :: c2 :: c3 :: c4 :: c5 :: c6 :: c7 :: c8 :: rest =>
      (parseFiltersFuel fuel rest).map (fun fs =>
        Filter.Capabilities (beVal [c1, c2, c3, c4, c5, c6, c7, c8]) :: fs)
  | fuel + 1, 5 :: g :: rest =>
      match Algorithm.from_u8 g with
      | some alg =>
          (parseFiltersFuel fuel rest).map (fun fs => Filter.Algorithm alg :: fs)
      | none => none
  | fuel + 1, 6 :: rest =>
      if 40 ≤ rest.length then
        (parseFiltersFuel fuel (rest.drop 40)).map (fun fs =>
          Filter.Label (rest.take 40) :: fs)
      else none
  | _ + 1, _ => none

/-- The filter-sequence parser: each step consumes at least one byte, so the
body's length bounds the loop (the fuel of `parseFiltersFuel`). -/
def parseFilters (d : List Nat) : Option (List Filter) :=
  parseFiltersFuel d.length d

/-- Modelled from the spec: derivation of the public key bytes from an
asymmetric payload (`Payload::public_key_bytes` of the store module, not
among the staged sources; spec section 3: only derived public keys are
returned).  An executable stand-in function of the secret material; `none`
for non-asymmetric payloads. -/
def Payload.public_key_bytes : Payload → Option (List Nat)
  | .RsaKey m => some (m.map (fun b => (b * 3 + 1) % 256))
  | .EcdsaNistP256 m => some (m.map (fun b => (b * 3 + 1) % 256))
  | .EcdsaSecp256k1 m => some (m.map (fun b => (b * 3 + 1) % 256))
  | .EcdsaNistP384 m => some (m.map (fun b => (b * 3 + 1) % 256))
  | .EcdsaNistP521 m => some (m.map (fun b => (b * 3 + 1) % 256))
  | .Ed25519Key m => some (m.map (fun b => (b * 3 + 1) % 256))
  | _ => none

/-- Lowercase hexadecimal digit of a value below 16. -/
def hexDigit (n : Nat) : String :=
  if n = 0 then "0" else if n = 1 then "1" else if n = 2 then "2"
  else if n = 3 then "3" else if n = 4 then "4" else if n = 5 then "5"
  else if n = 6 then "6" else if n = 7 then "7" else if n = 8 then "8"
  else if n = 9 then "9" else if n = 10 then "a" else if n = 11 then "b"
  else if n = 12 then "c" else if n = 13 then "d" else if n = 14 then "e"
  else "f"

/-- Rust's `{:04x}` formatting of a 16-bit value: four lowercase hex
digits. -/
def hex4 (n : Nat) : String :=
  hexDigit (n / 4096 % 16) ++ hexDigit (n / 256 % 16) ++
    hexDigit (n / 16 % 16) ++ hexDigit (n % 16)

/-- The subject `AttestationProfile::get_subject` mints for a target object
id: `CN=YubiHSM Attestation id:0xNNNN` with the id in `{:04x}` format. -/
def attestationSubject (target_id : Nat) : String :=
  "CN=YubiHSM Attestation id:0x" ++ hex4 target_id

/-- The extension list `AttestationProfile::build_extensions` pushes, in
order: firmware version and serial of the profile's device info, then the
target's origin, domains, capabilities, object id and label. -/
def attExtensions (device : DeviceInfoData) (target : ObjectInfo) :
    List AttExtension :=
  [.FirmwareVersion device.major_version device.minor_version device.build_version,
    .SerialExt device.serial_number,
    .OriginExt target.origin,
    .DomainExt target.domains,
    .CapabilityExt target.capabilities,
    .ObjectIdExt target.object_id,
    .LabelExt target.label]

/-- The fixed device info embedded in attestation certificates
(`sign_attestation_certificate`, the `profile.device` literal). -/
def attestationDeviceInfo : DeviceInfoData :=
  ⟨2, 2, 0, "0000000042", 0, 0⟩

/-- All capability bits, the default authentication key's capability mask
(spec section 6: "capabilities = all"). -/
def allCaps : Nat := 0xffffffffffffffff

/-- Modelled from the spec: the built-in default authentication key at id 1
(spec section 3; its PBKDF2-SHA256 derivation lives outside the staged
sources, so its two 16-byte session keys are modelled as named constants). -/
def defaultAuthKey : Object :=
  ⟨⟨1, .AuthenticationKey, .Authentication .YubicoAes, List.replicate 40 0,
      allCaps, allCaps, 0xffff, .Generated, 0⟩,
    .AuthenticationKey (List.replicate 16 1) (List.replicate 16 2)⟩

/-- `State::reset` (spec section 3): drop all objects and sessions and
recreate the default authentication key. -/
def State.reset (_ : State) : State := ⟨[defaultAuthKey], [], [], .Off, .Off⟩

/-- `delete_object`: remove the named `(id, type)`; `ObjectNotFound` when
absent; a body that fails to deserialize panics (`none`). -/
def delete_object (state : State) (cmd_data : List Nat) :
    State × Option RespMessage :=
  match parseObjectHandle cmd_data with
  | none => (state, none)
  | some (oid, ty) =>
    match Store.removeObj state.objects oid ty with
    | (some _, objects') =>
        ({ state with objects := objects' }, some (.success .DeleteObjectResp))
    | (none, _) => (state, some (.deviceError .ObjectNotFound))

/-- `echo`: the body echoed back. -/
def echo (cmd_data : List Nat) : RespMessage := .success (.EchoResp cmd_data)

/-- `get_object_info`: the stored object's info, or `ObjectNotFound`. -/
def get_object_info (state : State) (cmd_data : List Nat) :
    Option RespMessage :=
  match parseObjectHandle cmd_data with
  | none => none
  | some (oid, ty) =>
    match Store.get state.objects oid ty with
    | some obj => some (.success (.GetObjectInfoResp obj.object_info))
    | none => some (.deviceError .ObjectNotFound)

/-- `get_opaque` (the `GetOpaqueObject` handler): the opaque object's payload
bytes, or `ObjectNotFound`. -/
def get_opaque_object (state : State) (cmd_data : List Nat) :
    Option RespMessage :=
  match parseU16 cmd_data with
  | none => none
  | some (oid, _) =>
    match Store.get state.objects oid .Opaque with
    | some obj => some (.success (.GetOpaqueResp obj.payload.to_bytes))
    | none => some (.deviceError .ObjectNotFound)

/-- `get_option`: the per-command audit map serialized as `code | option`
pairs, or the single force / fips byte. -/
def get_option (state : State) (cmd_data : List Nat) : Option RespMessage :=
  match parseGetOption cmd_data with
  | none => none
  | some tag =>
    let results :=
      match tag with
      | .Command =>
          state.command_audit_options.foldr
            (fun co acc => co.1 :: co.2.to_u8 :: acc) []
      | .Force => [state.force_audit.to_u8]
      | .Fips => [state.fips.to_u8]
    some (.success (.GetOptionResp results))

/-- `get_pseudo_random`: `n` bytes drawn from the OS CSPRNG, which the
embedding passes in explicitly as `ent`. -/
def get_pseudo_random (_state : State) (ent : List Nat) (cmd_data : List Nat) :
    Option RespMessage :=
  match parseU16 cmd_data with
  | none => none
  | some (n, _) =>
      some (.success (.GetPseudoRandomResp ((List.range n).map (fun i => ent.getD i 0))))

/-- `get_public_key`: the asymmetric key's algorithm and derived public key
bytes, or `ObjectNotFound`; the source `unwrap`s on a non-asymmetric stored
algorithm or payload (`none` = panic). -/
def get_public_key (state : State) (cmd_data : List Nat) :
    Option RespMessage :=
  match parseU16 cmd_data with
  | none => none
  | some (kid, _) =>
    match Store.get state.objects kid .AsymmetricKey with
    | none => some (.deviceError .ObjectNotFound)
    | some obj =>
      match obj.algorithm.asymmetric with
      | none => none
      | some alg =>
        match obj.payload.public_key_bytes with
        | none => none
        | some pk => some (.success (.GetPublicKeyResp alg pk))

/-- `sign_hmac`: the HMAC-SHA256 tag over the body's data; `ObjectNotFound`
when the key is absent, `InvalidCommand` when it is not an HMAC key; the
source asserts the algorithm is HMAC-SHA256 (`none` = panic otherwise). -/
def sign_hmac (state : State) (cmd_data : List Nat) : Option RespMessage :=
  match parseU16 cmd_data with
  | none => none
  | some (kid, data) =>
    match Store.get state.objects kid .HmacKey with
    | none => some (.deviceError .ObjectNotFound)
    | some obj =>
      match obj.payload with
      | .HmacKey alg key =>
          if alg = .Sha256 then
            some (.success (.SignHmacResp (hmacSha256 key data)))
          else none
      | _ => some (.deviceError .InvalidCommand)

/-- `verify_hmac`: recompute the tag over the payload past the first 32
bytes and compare it against the first 32 in constant time; the result byte
is `ct_eq`'s. A payload shorter than 32 bytes makes the source's slicing
panic (`none`). -/
def verify_hmac (state : State) (cmd_data : List Nat) : Option RespMessage :=
  match parseU16 cmd_data with
  | none => none
  | some (kid, tagData) =>
    match Store.get state.objects kid .HmacKey with
    | none => some (.deviceError .ObjectNotFound)
    | some obj =>
      match obj.payload with
      | .HmacKey alg key =>
          if alg = .Sha256 then
            if 32 ≤ tagData.length then
              some (.success (.VerifyHmacResp
                (ctEq (hmacSha256 key (tagData.drop 32)) (tagData.take 32))))
            else none
          else none
      | _ => some (.deviceError .InvalidCommand)

/-- `sign_ecdsa`: DER signature over the supplied prehash with the curve
matching the payload variant; `InvalidCommand` for a non-ECDSA payload,
`ObjectNotFound` for a missing key. -/
def sign_ecdsa (state : State) (cmd_data : List Nat) : Option RespMessage :=
  match parseU16 cmd_data with
  | none => none
  | some (kid, digest) =>
    match Store.get state.objects kid .AsymmetricKey with
    | none => some (.deviceError .ObjectNotFound)
    | some obj =>
      match obj.payload with
      | .EcdsaNistP256 sk => some (.success (.SignEcdsaResp (ecdsaSign 1 sk digest)))
      | .EcdsaSecp256k1 sk => some (.success (.SignEcdsaResp (ecdsaSign 2 sk digest)))
      | .EcdsaNistP384 sk => some (.success (.SignEcdsaResp (ecdsaSign 3 sk digest)))
      | .EcdsaNistP521 sk => some (.success (.SignEcdsaResp (ecdsaSign 4 sk digest)))
      | _ => some (.deviceError .InvalidCommand)

/-- `sign_eddsa`: raw 64-byte Ed25519 signature over the message;
`InvalidCommand` for a non-Ed25519 payload, `ObjectNotFound` for a missing
key. -/
def sign_eddsa (state : State) (cmd_data : List Nat) : Option RespMessage :=
  match parseU16 cmd_data with
  | none => none
  | some (kid, data) =>
    match Store.get state.objects kid .AsymmetricKey with
    | none => some (.deviceError .ObjectNotFound)
    | some obj =>
      match obj.payload with
      | .Ed25519Key sk => some (.success (.SignEddsaResp (ed25519Sign sk data)))
      | _ => some (.deviceError .InvalidCommand)

/-- `sign_pss`: RSASSA-PSS signature with the digest the MGF1 algorithm
selects; the source's `expect` panics when the prehash length does not match
the digest (`none`). -/
def sign_pss (state : State) (cmd_data : List Nat) : Option RespMessage :=
  match parseSignPss cmd_data with
  | none => none
  | some (kid, m, digest) =>
    match Store.get state.objects kid .AsymmetricKey with
    | none => some (.deviceError .ObjectNotFound)
    | some obj =>
      match obj.payload with
      | .RsaKey key =>
          if digest.length = (MgfAlg.digest m).len then
            some (.success (.SignPssResp (rsaPssSign (MgfAlg.digest m) key digest)))
          else none
      | _ => some (.deviceError .InvalidCommand)

/-- `sign_pkcs1v15`: RSASSA-PKCS#1 v1.5 signature; the digest length selects
the hash (20 → SHA-1, 32 → SHA-256, 48 → SHA-384, 64 → SHA-512) and any
other length yields `InvalidCommand`. -/
def sign_pkcs1v15 (state : State) (cmd_data : List Nat) : Option RespMessage :=
  match parseU16 cmd_data with
  | none => none
  | some (kid, digest) =>
    match Store.get state.objects kid .AsymmetricKey with
    | none => some (.deviceError .ObjectNotFound)
    | some obj =>
      match obj.payload with
      | .RsaKey key =>
          if digest.length = 20 then
            some (.success (.SignPkcs1Resp (rsaPkcs1Sign .Sha1 key digest)))
          else if digest.length = 32 then
            some (.success (.SignPkcs1Resp (rsaPkcs1Sign .Sha256 key digest)))
          else if digest.length = 48 then
            some (.success (.SignPkcs1Resp (rsaPkcs1Sign .Sha384 key digest)))
          else if digest.length = 64 then
            some (.success (.SignPkcs1Resp (rsaPkcs1Sign .Sha512 key digest)))
          else some (.deviceError .InvalidCommand)
      | _ => some (.deviceError .InvalidCommand)

/-- `decrypt_oaep`: RSA-OAEP decryption with the caller-supplied label hash;
a failed decryption (padding error) yields `InvalidData`, a non-RSA payload
`InvalidCommand`, a missing key `ObjectNotFound`. -/
def decrypt_oaep (state : State) (cmd_data : List Nat) : Option RespMessage :=
  match parseDecryptOaep cmd_data with
  | none => none
  | some cmd =>
    match Store.get state.objects cmd.key_id .AsymmetricKey with
    | none => some (.deviceError .ObjectNotFound)
    | some obj =>
      match obj.payload with
      | .RsaKey key =>
        match oaepDecrypt (MgfAlg.digest cmd.mgf1_hash_alg) cmd.label_hash key
            cmd.data with
        | some pt => some (.success (.DecryptOaepResp pt))
        | none => some (.deviceError .InvalidData)
      | _ => some (.deviceError .InvalidCommand)

/-- Subject public key info of an attestation target
(`sign_attestation_certificate`'s `pub_key` match): derived for RSA and the
NIST P-256/P-384/P-521 payloads; every other payload hits the source's
`todo!()` (`none` = panic). -/
def attestationSpki : Payload → Option (List Nat)
  | .RsaKey m => Payload.public_key_bytes (.RsaKey m)
  | .EcdsaNistP256 m => Payload.public_key_bytes (.EcdsaNistP256 m)
  | .EcdsaNistP384 m => Payload.public_key_bytes (.EcdsaNistP384 m)
  | .EcdsaNistP521 m => Payload.public_key_bytes (.EcdsaNistP521 m)
  | _ => none

/-- `sign_attestation_certificate`: mint the attestation certificate for the
target key, signed by the attestation key.  The certificate's subject is the
target's attestation CN, its issuer is `AttestationProfile::get_issuer`
applied to that subject (which returns it unchanged), its validity runs from
`now` to `Time::INFINITY`, and its extensions are the profile's seven
attestation extensions.  A missing target yields `ObjectNotFound`; a missing
attestation key or an unsupported payload hits `todo!()` (`none`).  `now` and
the random certificate serial are passed in explicitly. -/
def sign_attestation_certificate (state : State) (now serialRand : Nat)
    (cmd_data : List Nat) : Option RespMessage :=
  match parseSignAttestation cmd_data with
  | none => none
  | some (kid, akid) =>
    match Store.get state.objects kid .AsymmetricKey with
    | none => some (.deviceError .ObjectNotFound)
    | some target =>
      match attestationSpki target.payload with
      | none => none
      | some spki =>
        let subject := attestationSubject target.object_info.object_id
        let issuer := subject
        let exts := attExtensions attestationDeviceInfo target.object_info
        match Store.get state.objects akid .AsymmetricKey with
        | none => none
        | some attKey =>
          match attKey.payload with
          | .RsaKey sk =>
              some (.success (.AttestationCertificateResp
                ⟨subject, issuer, serialRand, .moment now, .infinity, spki, exts,
                  rsaPkcs1Sign .Sha256 sk []⟩))
          | .EcdsaNistP256 sk =>
              some (.success (.AttestationCertificateResp
                ⟨subject, issuer, serialRand, .moment now, .infinity, spki, exts,
                  ecdsaSign 1 sk []⟩))
          | .EcdsaNistP384 sk =>
              some (.success (.AttestationCertificateResp
                ⟨subject, issuer, serialRand, .moment now, .infinity, spki, exts,
                  ecdsaSign 3 sk []⟩))
          | .EcdsaNistP521 sk =>
              some (.success (.AttestationCertificateResp
                ⟨subject, issuer, serialRand, .moment now, .infinity, spki, exts,
                  ecdsaSign 4 sk []⟩))
          | _ => none

/-- `export_wrapped`: wrap the named object under the wrap key with a fresh
13-byte nonce (entropy passed in); any wrap failure maps to
`InvalidCommand`. -/
def export_wrapped (state : State) (ent : List Nat) (cmd_data : List Nat) :
    State × Option RespMessage :=
  match parseExportWrapped cmd_data with
  | none => (state, none)
  | some (wkid, ty, oid) =>
    let nonce := (List.range 13).map (fun i => ent.getD i 0)
    match wrap_obj state.objects wkid oid ty nonce with
    | .ok ct => (state, some (.success (.ExportWrappedResp nonce ct)))
    | .error _ => (state, some (.deviceError .InvalidCommand))

/-- `import_wrapped`: unwrap the ciphertext under the wrap key and insert the
reconstructed object; any unwrap failure maps to `InvalidCommand`. -/
def import_wrapped (state : State) (cmd_data : List Nat) :
    State × Option RespMessage :=
  match parseImportWrapped cmd_data with
  | none => (state, none)
  | some (wkid, nonce, ct) =>
    match unwrap_obj state.objects wkid nonce ct with
    | .ok (objects', info) =>
        ({ state with objects := objects' },
          some (.success (.ImportWrappedResp info.object_type info.object_id)))
    | .error _ => (state, some (.deviceError .InvalidCommand))

/-- `list_objects`: the entries of the stored objects every supplied filter
accepts; an empty filter set accepts everything. -/
def list_objects (state : State) (cmd_data : List Nat) : Option RespMessage :=
  match parseFilters cmd_data with
  | none => none
  | some filters =>
    some (.success (.ListObjectsResp
      ((state.objects.filter (fun o =>
          if filters.isEmpty then true
          else filters.all (fun f => filterMatches o f))).map Entry.ofObject)))

/-- Modelled from the spec: `Store::generate` samples key material for the
algorithm from the CSPRNG and stores it with `origin = Generated` (spec
section 4.3; the store module is not among the staged sources; entropy is
passed in). -/
def Store.generate (store : Store) (id : Nat) (ty : ObjType) (alg : Algorithm)
    (label : List Nat) (caps deleg doms : Nat) (ent : List Nat) : Store :=
  match payloadFromBytes alg ent with
  | some p => Store.putObj store ⟨⟨id, ty, alg, label, caps, deleg, doms, .Generated, 0⟩, p⟩
  | none => store

/-- Modelled from the spec: `Store::put` deserializes raw key material into
the payload variant matching the algorithm and stores it with
`origin = Imported` (spec section 4.3). -/
def Store.put (store : Store) (id : Nat) (ty : ObjType) (alg : Algorithm)
    (label : List Nat) (caps deleg doms : Nat) (bytes : List Nat) : Store :=
  match payloadFromBytes alg bytes with
  | some p => Store.putObj store ⟨⟨id, ty, alg, label, caps, deleg, doms, .Imported, 0⟩, p⟩
  | none => store

/-- `gen_asymmetric_key`: generate an asymmetric key (no delegated
capabilities) and answer with its id. -/
def gen_asymmetric_key (state : State) (ent : List Nat) (cmd_data : List Nat) :
    State × Option RespMessage :=
  match parseKeyParams cmd_data with
  | none => (state, none)
  | some (params, _) =>
    ({ state with objects := (Store.generate state.objects params.key_id
        ObjType.AsymmetricKey params.algorithm params.label params.capabilities 0
        params.domains ent) },
      some (.success (.GenAsymmetricKeyResp params.key_id)))

/-- `gen_hmac_key`: generate an HMAC key and answer with its id. -/
def gen_hmac_key (state : State) (ent : List Nat) (cmd_data : List Nat) :
    State × Option RespMessage :=
  match parseKeyParams cmd_data with
  | none => (state, none)
  | some (params, _) =>
    ({ state with objects := (Store.generate state.objects params.key_id
        ObjType.HmacKey params.algorithm params.label params.capabilities 0
        params.domains ent) },
      some (.success (.GenHmacKeyResp params.key_id)))

/-- `gen_wrap_key`: generate a wrap key with delegated capabilities and
answer with its id. -/
def gen_wrap_key (state : State) (ent : List Nat) (cmd_data : List Nat) :
    State × Option RespMessage :=
  match parseKeyParams cmd_data with
  | none => (state, none)
  | some (params, rest) =>
    match readBE 8 rest with
    | none => (state, none)
    | some (deleg, _) =>
      ({ state with objects := (Store.generate state.objects params.key_id
          ObjType.WrapKey params.algorithm params.label params.capabilities deleg
          params.domains ent) },
        some (.success (.GenWrapKeyResp params.key_id)))

/-- `put_asymmetric_key`: import asymmetric key material. -/
def put_asymmetric_key (state : State) (cmd_data : List Nat) :
    State × Option RespMessage :=
  match parseKeyParams cmd_data with
  | none => (state, none)
  | some (params, data) =>
    ({ state with objects := (Store.put state.objects params.key_id
        ObjType.AsymmetricKey params.algorithm params.label params.capabilities 0
        params.domains data) },
      some (.success (.PutAsymmetricKeyResp params.key_id)))

/-- `put_authentication_key`: import an authentication key (delegated
capabilities, then the 32-byte key). -/
def put_authentication_key (state : State) (cmd_data : List Nat) :
    State × Option RespMessage :=
  match parseKeyParams cmd_data with
  | none => (state, none)
  | some (params, rest) =>
    match readBE 8 rest with
    | none => (state, none)
    | some (deleg, keyBytes) =>
      ({ state with objects := (Store.put state.objects params.key_id
          ObjType.AuthenticationKey params.algorithm params.label params.capabilities
          deleg params.domains keyBytes) },
        some (.success (.PutAuthenticationKeyResp params.key_id)))

/-- `put_hmac_key`: import HMAC key material. -/
def put_hmac_key (state : State) (cmd_data : List Nat) :
    State × Option RespMessage :=
  match parseKeyParams cmd_data with
  | none => (state, none)
  | some (params, data) =>
    ({ state with objects := (Store.put state.objects params.key_id
        ObjType.HmacKey params.algorithm params.label params.capabilities 0
        params.domains data) },
      some (.success (.PutHmacKeyResp params.key_id)))

/-- `put_opaque` (the `PutOpaqueObject` handler): import an opaque blob. -/
def put_opaque_object (state : State) (cmd_data : List Nat) :
    State × Option RespMessage :=
  match parseKeyParams cmd_data with
  | none => (state, none)
  | some (params, data) =>
    ({ state with objects := (Store.put state.objects params.key_id
        ObjType.Opaque params.algorithm params.label params.capabilities 0
        params.domains data) },
      some (.success (.PutOpaqueResp params.key_id)))

/-- `put_wrap_key`: import wrap key material (delegated capabilities, then
the key bytes). -/
def put_wrap_key (state : State) (cmd_data : List Nat) :
    State × Option RespMessage :=
  match parseKeyParams cmd_data with
  | none => (state, none)
  | some (params, rest) =>
    match readBE 8 rest with
    | none => (state, none)
    | some (deleg, data) =>
      ({ state with objects := (Store.put state.objects params.key_id
          ObjType.WrapKey params.algorithm params.label params.capabilities deleg
          params.domains data) },
        some (.success (.PutWrapKeyResp params.key_id)))

/-- Replace a command's audit option in the per-command map. -/
def putAuditOption (options : List (Nat × AuditOption)) (code : Nat)
    (opt : AuditOption) : List (Nat × AuditOption) :=
  options.filter (fun co => !(decide (co.1 = code))) ++ [(code, opt)]

/-- `put_option` (the `SetOption` handler): set the force-audit flag, one
command's audit option, or the FIPS flag; the source asserts the value length
and `unwrap`s the option byte (`none` = panic). -/
def put_option (state : State) (cmd_data : List Nat) :
    State × Option RespMessage :=
  match parseSetOption cmd_data with
  | none => (state, none)
  | some (tag, len, value) =>
    match tag with
    | .Force =>
        if len = 1 then
          match AuditOption.from_u8 (value.getD 0 0) with
          | some o => ({ state with force_audit := o }, some (.success .PutOptionResp))
          | none => (state, none)
        else (state, none)
    | .Command =>
        if len = 2 then
          match value with
          | c :: ob :: _ =>
            match AuditOption.from_u8 ob with
            | some o =>
                ({ state with command_audit_options :=
                    putAuditOption state.command_audit_options c o },
                  some (.success .PutOptionResp))
            | none => (state, none)
          | _ => (state, none)
        else (state, none)
    | .Fips =>
        if len = 1 then
          match AuditOption.from_u8 (value.getD 0 0) with
          | some o => ({ state with fips := o }, some (.success .PutOptionResp))
          | none => (state, none)
        else (state, none)

/-- The mock device information report (`device_info`; the algorithm catalog
literal is left out of the model). -/
def device_info : RespMessage :=
  .success (.DeviceInfoResp ⟨2, 0, 0, "0123456789", 62, 62⟩)

/-- The mock storage status report (`get_storage_info`). -/
def get_storage_info : RespMessage :=
  .success (.GetStorageInfoResp ⟨256, 256, 1024, 1024, 126⟩)

/-- The mock log report (`get_log_entries`): zero entries. -/
def get_log_entries : RespMessage := .success (.LogEntriesResp 0 0 0)

/-- Command codes (`command::Code` for the inner dispatch;
`CommandType` for the adapter's outer dispatch). -/
inductive Code
  | Echo
  | CreateSession
  | AuthSession
  | SessionMessage
  | DeviceInfo
  | BlinkDevice
  | CloseSession
  | DeleteObject
  | ExportWrapped
  | GenerateAsymmetricKey
  | GenerateHmacKey
  | GenerateWrapKey
  | GetLogEntries
  | GetObjectInfo
  | GetOpaqueObject
  | GetOption
  | GetPseudoRandom
  | GetPublicKey
  | SignHmac
  | ImportWrapped
  | ListObjects
  | PutAsymmetricKey
  | PutAuthenticationKey
  | PutHmacKey
  | PutOpaqueObject
  | SetOption
  | PutWrapKey
  | ResetDevice
  | SetLogIndex
  | SignEcdsa
  | SignEddsa
  | GetStorageInfo
  | VerifyHmac
  | SignPss
  | SignPkcs1
  | SignAttestationCertificate
  | DecryptOaep
deriving DecidableEq

/-- Modelled from the spec: the outer command codes (spec section 6:
`0x03 Echo, 0x04 CreateSession, 0x05 AuthSession, 0x06 SessionMessage`; the
secure-channel module holding `CommandType` is not among the staged
sources).  Other byte values fail to parse. -/
def Code.from_outer_u8 : Nat → Option Code
  | 0x03 => some .Echo
  | 0x04 => some .CreateSession
  | 0x05 => some .AuthSession
  | 0x06 => some .SessionMessage
  | _ => none

/-- The state dispatched by `session_message` after decrypting an inner
command (`src/mockhsm/command.rs` lines 111–147): one arm per supported
command code; handlers taking `&State` cannot change the state and are
re-wrapped with the incoming state; an unsupported code panics (`none`).
`ent`, `now` and `serialRand` stand for the OS CSPRNG and clock inputs. -/
def dispatchCommand (state : State) (ent : List Nat) (now serialRand : Nat)
    (session_id : Nat) (code : Code) (cmd_data : List Nat) :
    State × Option RespMessage :=
  match code with
  | .BlinkDevice => (state, some (.success .BlinkDeviceResp))
  | .CloseSession =>
      ({ state with sessions := state.sessions.filter (fun s => !(decide (s.id = session_id))) },
        some (.success .CloseSessionResp))
  | .DeleteObject => delete_object state cmd_data
  | .DeviceInfo => (state, some device_info)
  | .Echo => (state, some (echo cmd_data))
  | .ExportWrapped => export_wrapped state ent cmd_data
  | .GenerateAsymmetricKey => gen_asymmetric_key state ent cmd_data
  | .GenerateHmacKey => gen_hmac_key state ent cmd_data
  | .GenerateWrapKey => gen_wrap_key state ent cmd_data
  | .GetLogEntries => (state, some get_log_entries)
  | .GetObjectInfo => (state, get_object_info state cmd_data)
  | .GetOpaqueObject => (state, get_opaque_object state cmd_data)
  | .GetOption => (state, get_option state cmd_data)
  | .GetPseudoRandom => (state, get_pseudo_random state ent cmd_data)
  | .GetPublicKey => (state, get_public_key state cmd_data)
  | .SignHmac => (state, sign_hmac state cmd_data)
  | .ImportWrapped => import_wrapped state cmd_data
  | .ListObjects => (state, list_objects state cmd_data)
  | .PutAsymmetricKey => put_asymmetric_key state cmd_data
  | .PutAuthenticationKey => put_authentication_key state cmd_data
  | .PutHmacKey => put_hmac_key state cmd_data
  | .PutOpaqueObject => put_opaque_object state cmd_data
  | .SetOption => put_option state cmd_data
  | .PutWrapKey => put_wrap_key state cmd_data
  | .ResetDevice => (State.reset state, some (.success (.ResetDeviceResp 1)))
  | .SetLogIndex => (state, some (.success .SetLogIndexResp))
  | .SignEcdsa => (state, sign_ecdsa state cmd_data)
  | .SignEddsa => (state, sign_eddsa state cmd_data)
  | .GetStorageInfo => (state, some get_storage_info)
  | .VerifyHmac => (state, verify_hmac state cmd_data)
  | .SignPss => (state, sign_pss state cmd_data)
  | .SignPkcs1 => (state, sign_pkcs1v15 state cmd_data)
  | .SignAttestationCertificate =>
      (state, sign_attestation_certificate state now serialRand cmd_data)
  | .DecryptOaep => (state, decrypt_oaep state cmd_data)
  | _ => (state, none)

/-- An outer command message (`securechannel::CommandMessage`, modelled from
the spec since the secure-channel module is not among the staged sources):
command type, optional session id, body. -/
structure CommandMessage where
  command_type : Code
  session_id : Option Nat
  data : List Nat
deriving DecidableEq

/-- Modelled from the spec: `CommandMessage::parse` of the outer frame
`u8 code | u16 BE length | payload[length]` (spec sections 4.1 and 6); for a
session-bound command the first payload byte is the session id. -/
def CommandMessage.parse (body : List Nat) : Option CommandMessage :=
  match body with
  | c :: l1 :: l2 :: payload =>
    match Code.from_outer_u8 c with
    | none => none
    | some code =>
      if payload.length = l1 * 256 + l2 then
        if code = .SessionMessage ∨ code = .AuthSession then
          match payload with
          | sid :: rest => some ⟨code, some sid, rest⟩
          | [] => none
        else some ⟨code, none, payload⟩
      else none
  | _ => none

/-- Adapter error kinds (`AdapterErrorKind`); the claims only concern
`ConnectionFailed`. -/
inductive AdapterErrorKind
  | ConnectionFailed
deriving DecidableEq

/-- Modelled from the spec: the `CreateSession` handshake body
(`commands::create_session`; the secure-channel key derivation is not among
the staged sources).  Only the fact that the adapter dispatches it — as
opposed to failing — matters to the claims, so it is abstracted as a
successfully produced response. -/
def createSessionModel (state : State) (command : CommandMessage) :
    State × List Nat :=
  (state, command.data)

/-- Modelled from the spec: the `AuthSession` verification body
(`commands::authenticate_session`); abstracted like `createSessionModel`. -/
def authSessionModel (state : State) (command : CommandMessage) :
    State × List Nat :=
  (state, command.data)

/-- Modelled from the spec: the `SessionMessage` body
(`commands::session_message`); the channel decryption is not among the staged
sources, so the dispatch result is abstracted as a successfully produced
response. -/
def sessionMessageModel (state : State) (command : CommandMessage) :
    State × List Nat :=
  (state, command.data)

/-- `MockAdapter::send_message` (`src/mockhsm/adapter.rs` lines 26–42): parse
the outer command; a parse failure is a `ConnectionFailed` adapter error;
`CreateSession`, `AuthSession` and `SessionMessage` dispatch into the state;
every other command type fails with `ConnectionFailed`. -/
def send_message (state : State) (body : List Nat) :
    Except AdapterErrorKind (State × List Nat) :=
  match CommandMessage.parse body with
  | none => .error .ConnectionFailed
  | some command =>
    match command.command_type with
    | .CreateSession => .ok (createSessionModel state command)
    | .AuthSession => .ok (authSessionModel state command)
    | .SessionMessage => .ok (sessionMessageModel state command)
    | _ => .error .ConnectionFailed

/-- Well-formedness of stored object metadata: the widths the wire format
fixes (16-bit id and domain mask, 64-bit capability masks, one-byte sequence,
40-byte label; spec sections 3 and 4.1). -/
def ObjectInfo.wf (info : ObjectInfo) : Prop :=
  info.object_id < 2 ^ 16 ∧ info.capabilities < 2 ^ 64 ∧
    info.delegated_capabilities < 2 ^ 64 ∧ info.domains < 2 ^ 16 ∧
    info.sequence < 2 ^ 8 ∧ info.label.length = 40

/-- Well-formedness of object metadata is decidable. -/
instance (info : ObjectInfo) : Decidable info.wf := by
  unfold ObjectInfo.wf
  infer_instance

/-- The inner commands whose handlers take the state by shared reference
(`&State`) in `src/mockhsm/command.rs`. -/
def readOnlyCodes : List Code :=
  [.GetObjectInfo, .GetOpaqueObject, .GetOption, .GetPseudoRandom,
    .GetPublicKey, .ListObjects, .SignHmac, .VerifyHmac, .SignEcdsa,
    .SignEddsa, .SignPss, .SignPkcs1, .SignAttestationCertificate,
    .DecryptOaep]

/-- Example RSA asymmetric key at id 100 (concrete-input witnesses). -/
def exRsaKey : Object :=
  ⟨⟨100, .AsymmetricKey, .Asymmetric .Rsa2048, List.replicate 40 0,
      0xff, 0, 1, .Generated, 0⟩, .RsaKey [1, 2, 3]⟩

/-- Example RSA attestation key at id 1 (concrete-input witnesses). -/
def exAttKey : Object :=
  ⟨⟨1, .AsymmetricKey, .Asymmetric .Rsa2048, List.replicate 40 0,
      0xff, 0, 1, .Generated, 0⟩, .RsaKey [7, 8]⟩

/-- Example HMAC-SHA256 key at id 7 (concrete-input witnesses). -/
def exHmacKey : Object :=
  ⟨⟨7, .HmacKey, .Hmac .Sha256, List.replicate 40 0,
      0xff, 0, 1, .Generated, 0⟩, .HmacKey .Sha256 [9, 9, 9]⟩

/-- Example AES-CCM wrap key at id 200 delegating all capabilities
(concrete-input witnesses). -/
def exWrapKey : Object :=
  ⟨⟨200, .WrapKey, .Wrap .Aes128Ccm, List.replicate 40 0,
      0xff, allCaps, 1, .Generated, 0⟩, .WrapKey .Aes128Ccm [5, 6]⟩

/-- Example state holding the four example objects. -/
def exState : State :=
  ⟨[exRsaKey, exAttKey, exHmacKey, exWrapKey], [], [], .Off, .Off⟩

/-- Example NIST P-256 asymmetric key at id 300 (concrete-input witnesses for
the EC attestation branches). -/
def exEcKey : Object :=
  ⟨⟨300, .AsymmetricKey, .Asymmetric .EcP256, List.replicate 40 0,
      0xff, 0, 1, .Generated, 0⟩, .EcdsaNistP256 [4, 2]⟩

/-- Example state holding the EC key alongside the RSA keys (attestation
witnesses). -/
def exState5 : State :=
  ⟨[exRsaKey, exAttKey, exEcKey], [], [], .Off, .Off⟩

/-- The big-endian encoding of a `w`-bit-wide value has `w` bytes. -/
theorem beBytes_length (w n : Nat) : (beBytes w n).length = w := by
  induction w generalizing n with
  | zero => rfl
  | succ w ih => simp [beBytes, ih]

/-- Decoding a big-endian encoding recovers the value modulo `256 ^ w`. -/
theorem beVal_beBytes (w n : Nat) : beVal (beBytes w n) = n % 256 ^ w := by
  induction w generalizing n with
  | zero => simp [beBytes, beVal, Nat.mod_one]
  | succ w ih =>
    have h1 : beVal (beBytes w (n / 256) ++ [n % 256]) =
        beVal (beBytes w (n / 256)) * 256 + n % 256 := by
      simp [beVal, List.foldl_append]
    have h2 : 256 ^ (w + 1) = 256 * 256 ^ w := by ring
    calc beVal (beBytes (w + 1) n)
        = beVal (beBytes w (n / 256)) * 256 + n % 256 := h1
      _ = (n / 256 % 256 ^ w) * 256 + n % 256 := by rw [ih]
      _ = n % 256 ^ (w + 1) := by
            rw [h2, Nat.mod_mul]
            ring

/-- Reading `w` big-endian bytes off an encoded prefix yields the encoded
value and the remainder. -/
theorem readBE_beBytes (w n : Nat) (rest : List Nat) (h : n < 256 ^ w) :
    readBE w (beBytes w n ++ rest) = some (n, rest) := by
  have hl : (beBytes w n).length = w := beBytes_length w n
  have hw : w ≤ (beBytes w n ++ rest).length := by
    simp [List.length_append, hl]
  simp only [readBE, if_pos hw]
  rw [List.take_left' hl, List.drop_left' hl, beVal_beBytes w n,
    Nat.mod_eq_of_lt h]

/-- Reading `w` raw bytes off an exact-length prefix splits it off. -/
theorem readBytes_exact (w : Nat) (l rest : List Nat) (h : l.length = w) :
    readBytes w (l ++ rest) = some (l, rest) := by
  have hw : w ≤ (l ++ rest).length := by simp [List.length_append, h]
  simp only [readBytes, if_pos hw]
  rw [List.take_left' h, List.drop_left' h]

/-- `ObjType` wire tags round-trip. -/
theorem objType_tag_roundtrip (t : ObjType) : ObjType.from_u8 t.to_u8 = some t := by
  cases t <;> rfl

/-- `Origin` wire tags round-trip. -/
theorem origin_tag_roundtrip (o : Origin) : Origin.from_u8 o.to_u8 = some o := by
  cases o <;> rfl

/-- `Algorithm` wire tags round-trip (spec section 6: the implementation
round-trips the public tag values exactly). -/
theorem algorithm_tag_roundtrip (a : Algorithm) :
    Algorithm.from_u8 a.to_u8 = some a := by
  cases a with
  | Rsa r => cases r with
    | Pkcs1 p => cases p <;> rfl
    | Pss p => cases p <;> rfl
    | Oaep p => cases p <;> rfl
  | Asymmetric x => cases x <;> rfl
  | Hmac x => cases x <;> rfl
  | Ecdsa x => cases x <;> rfl
  | Ecdh x => cases x <;> rfl
  | Wrap x => cases x <;> rfl
  | Opaque x => cases x <;> rfl
  | Mgf x => cases x <;> rfl
  | Template x => cases x <;> rfl
  | YubicoOtp x => cases x <;> rfl
  | Authentication x => cases x <;> rfl

/-- Decoding a serialized info header recovers it, returning the remaining
bytes untouched, whenever the header's fields fit their wire widths. -/
theorem deserializeInfo_serializeInfo (info : ObjectInfo) (rest : List Nat)
    (hwf : info.wf) :
    deserializeInfo (serializeInfo info ++ rest) = some (info, rest) := by
  obtain ⟨hid, hcap, hdel, hdom, hseq, hlab⟩ := hwf
  have hcap' : info.capabilities < 256 ^ 8 := by norm_num at hcap ⊢; omega
  have hdel' : info.delegated_capabilities < 256 ^ 8 := by norm_num at hdel ⊢; omega
  have hid' : info.object_id < 256 ^ 2 := by norm_num at hid ⊢; omega
  have hdom' : info.domains < 256 ^ 2 := by norm_num at hdom ⊢; omega
  simp only [serializeInfo, encU16, List.append_assoc, List.singleton_append,
    List.cons_append, List.nil_append]
  simp only [deserializeInfo, readBE_beBytes _ _ _ hcap',
    readBE_beBytes _ _ _ hid', readBE_beBytes _ _ _ hdom',
    readBE_beBytes _ _ _ hdel', readByte, readBytes_exact _ _ _ hlab,
    objType_tag_roundtrip, algorithm_tag_roundtrip, origin_tag_roundtrip]

/-- The model keystream has the requested length. -/
theorem ccmKeystream_length (key nonce : List Nat) (len : Nat) :
    (ccmKeystream key nonce len).length = len := by
  simp [ccmKeystream]

/-- XOR against the same byte string twice is the identity (the second
operand at least as long as the first). -/
theorem xorBytes_xorBytes : ∀ (a b : List Nat), a.length ≤ b.length →
    xorBytes (xorBytes a b) b = a
  | [], _, _ => by simp [xorBytes]
  | x :: xs, y :: ys, h => by
    simp only [xorBytes, List.zipWith_cons_cons]
    rw [show Nat.xor (Nat.xor x y) y = x from Nat.xor_cancel_right y x]
    have := xorBytes_xorBytes xs ys (by simpa using h)
    simpa [xorBytes] using this
  | x :: xs, [], h => by simp at h

/-- The CCM model decrypts its own ciphertexts. -/
theorem ccmOpen_ccmSeal (key nonce pt : List Nat) :
    ccmOpen key nonce (ccmSeal key nonce pt) = some pt := by
  have hks : (ccmKeystream key nonce pt.length).length = pt.length :=
    ccmKeystream_length key nonce pt.length
  have hbody : (xorBytes pt (ccmKeystream key nonce pt.length)).length = pt.length := by
    simp [xorBytes, List.length_zipWith, hks]
  have htag : (ccmTag key nonce pt).length = 16 := by simp [ccmTag]
  have hct : (ccmSeal key nonce pt).length = pt.length + 16 := by
    simp [ccmSeal, List.length_append, hbody, htag]
  have h16 : 16 ≤ (ccmSeal key nonce pt).length := by omega
  have hsub : (ccmSeal key nonce pt).length - 16 = pt.length := by omega
  have htake : (ccmSeal key nonce pt).take (pt.length) =
      xorBytes pt (ccmKeystream key nonce pt.length) := by
    simp only [ccmSeal]
    exact List.take_left' hbody
  have hdrop : (ccmSeal key nonce pt).drop (pt.length) = ccmTag key nonce pt := by
    simp only [ccmSeal]
    exact List.drop_left' hbody
  have hxor : xorBytes (xorBytes pt (ccmKeystream key nonce pt.length))
      (ccmKeystream key nonce pt.length) = pt :=
    xorBytes_xorBytes pt (ccmKeystream key nonce pt.length) (by omega)
  simp only [ccmOpen, if_pos h16, hsub, htake, hdrop, hbody, hxor]
  simp

/-- Reconstructing a payload from its serialized bytes by the object's
algorithm recovers it, whenever payload and algorithm are consistent. -/
theorem payloadFromBytes_to_bytes (alg : Algorithm) (p : Payload)
    (h : payloadMatches alg p = true) :
    payloadFromBytes alg p.to_bytes = some p := by
  cases p with
  | RsaKey m =>
      cases alg with
      | Asymmetric x => cases x <;> simp_all [payloadMatches, payloadFromBytes, Payload.to_bytes]
      | _ => simp_all [payloadMatches]
  | EcdsaNistP256 m =>
      cases alg with
      | Asymmetric x => cases x <;> simp_all [payloadMatches, payloadFromBytes, Payload.to_bytes]
      | _ => simp_all [payloadMatches]
  | EcdsaSecp256k1 m =>
      cases alg with
      | Asymmetric x => cases x <;> simp_all [payloadMatches, payloadFromBytes, Payload.to_bytes]
      | _ => simp_all [payloadMatches]
  | EcdsaNistP384 m =>
      cases alg with
      | Asymmetric x => cases x <;> simp_all [payloadMatches, payloadFromBytes, Payload.to_bytes]
      | _ => simp_all [payloadMatches]
  | EcdsaNistP521 m =>
      cases alg with
      | Asymmetric x => cases x <;> simp_all [payloadMatches, payloadFromBytes, Payload.to_bytes]
      | _ => simp_all [payloadMatches]
  | Ed25519Key m =>
      cases alg with
      | Asymmetric x => cases x <;> simp_all [payloadMatches, payloadFromBytes, Payload.to_bytes]
      | _ => simp_all [payloadMatches]
  | HmacKey halg k =>
      cases alg with
      | Hmac x => simp_all [payloadMatches, payloadFromBytes, Payload.to_bytes]
      | _ => simp_all [payloadMatches]
  | WrapKey walg k =>
      cases alg with
      | Wrap x => simp_all [payloadMatches, payloadFromBytes, Payload.to_bytes]
      | _ => simp_all [payloadMatches]
  | OpaqueData oalg d =>
      cases alg with
      | Opaque x => simp_all [payloadMatches, payloadFromBytes, Payload.to_bytes]
      | _ => simp_all [payloadMatches]
  | AuthenticationKey e m =>
      cases alg with
      | Authentication x =>
          cases x
          simp only [payloadMatches, decide_eq_true_eq] at h
          obtain ⟨he, hm⟩ := h
          have hlen : (e ++ m).length = 32 := by simp [List.length_append, he, hm]
          simp only [payloadFromBytes, Payload.to_bytes, hlen, if_pos rfl]
          simp [List.take_left' he, List.drop_left' he]
      | _ => simp_all [payloadMatches]

/-- Looking up the `(id, type)` of a freshly put object finds exactly it. -/
theorem Store.get_putObj (store : Store) (o : Object) :
    Store.get (Store.putObj store o) o.object_info.object_id
      o.object_info.object_type = some o := by
  unfold Store.get Store.putObj
  induction store with
  | nil => simp
  | cons x xs ih =>
    by_cases hx : x.object_info.object_id = o.object_info.object_id ∧
        x.object_info.object_type = o.object_info.object_type
    · simpa [List.filter, decide_eq_true_eq, hx] using ih
    · simp only [List.filter, decide_eq_true_eq]
      rw [decide_eq_false hx]
      simpa [List.find?, decide_eq_false hx] using ih

/-- A bitwise OR of naturals is zero exactly when both operands are. -/
theorem lor_eq_zero_iff (a b : Nat) : Nat.lor a b = 0 ↔ a = 0 ∧ b = 0 := by
  constructor
  · intro h
    have h' : a ||| b = 0 := h
    refine ⟨Nat.zero_of_testBit_eq_false fun i => ?_,
      Nat.zero_of_testBit_eq_false fun i => ?_⟩
    · have h2 := congrArg (fun n => Nat.testBit n i) h'
      simp only [Nat.testBit_or, Nat.zero_testBit, Bool.or_eq_false_iff] at h2
      exact h2.1
    · have h2 := congrArg (fun n => Nat.testBit n i) h'
      simp only [Nat.testBit_or, Nat.zero_testBit, Bool.or_eq_false_iff] at h2
      exact h2.2
  · rintro ⟨rfl, rfl⟩
    rfl

/-- The OR-accumulating fold (the constant-time comparison's accumulator) is
zero exactly when the seed and every element are. -/
theorem foldl_lor_eq_zero (l : List Nat) (x : Nat) :
    l.foldl Nat.lor x = 0 ↔ x = 0 ∧ ∀ y ∈ l, y = 0 := by
  induction l generalizing x with
  | nil => simp
  | cons a t ih =>
    simp only [List.foldl_cons, List.mem_cons, forall_eq_or_imp]
    rw [ih, lor_eq_zero_iff]
    tauto

/-- Equal-length byte strings XOR to all-zero pairs exactly when they are
equal. -/
theorem zipWith_xor_all_zero : ∀ (a b : List Nat), a.length = b.length →
    ((∀ y ∈ List.zipWith Nat.xor a b, y = 0) ↔ a = b)
  | [], [], _ => by simp
  | [], _ :: _, h => by simp at h
  | _ :: _, [], h => by simp at h
  | x :: xs, y :: ys, h => by
    have ih := zipWith_xor_all_zero xs ys (by simpa using h)
    simp only [List.zipWith_cons_cons, List.mem_cons, forall_eq_or_imp]
    constructor
    · rintro ⟨h1, h2⟩
      have hxy := Nat.xor_eq_zero.mp h1
      rw [hxy, ih.mp h2]
    · intro hEq
      injection hEq with h1 h2
      subst h1
      exact ⟨Nat.xor_self x, by rw [ih, h2]⟩

/-- The constant-time comparison answers 1 exactly on equal byte strings. -/
theorem ctEq_eq_one_iff (a b : List Nat) : ctEq a b = 1 ↔ a = b := by
  unfold ctEq
  by_cases hl : a.length = b.length
  · rw [if_pos hl]
    by_cases hz : (List.zipWith Nat.xor a b).foldl Nat.lor 0 = 0
    · rw [if_pos hz]
      have h2 := ((foldl_lor_eq_zero _ 0).mp hz).2
      simp [(zipWith_xor_all_zero a b hl).mp h2]
    · rw [if_neg hz]
      constructor
      · intro h
        exact absurd h (by omega)
      · intro hEq
        subst hEq
        exact absurd ((foldl_lor_eq_zero _ 0).mpr
          ⟨rfl, (zipWith_xor_all_zero a a rfl).mpr rfl⟩) hz
  · rw [if_neg hl]
    constructor
    · intro h
      exact absurd h (by omega)
    · intro hEq
      subst hEq
      exact absurd rfl hl

/-- The constant-time comparison returns a single result bit. -/
theorem ctEq_zero_or_one (a b : List Nat) : ctEq a b = 0 ∨ ctEq a b = 1 := by
  unfold ctEq
  split
  · split
    · right; rfl
    · left; rfl
  · left; rfl

/-- `encU16` written out. -/
theorem encU16_eq (n : Nat) : encU16 n = [n / 256 % 256, n % 256] := rfl

/-- Parsing a 16-bit value off its big-endian encoding recovers it. -/
theorem parseU16_encU16 (n : Nat) (rest : List Nat) (h : n < 65536) :
    parseU16 (encU16 n ++ rest) = some (n, rest) := by
  simp [parseU16, encU16_eq]
  omega

/-- Parsing an object handle off its encoding recovers id and type. -/
theorem parseObjectHandle_enc (n : Nat) (ty : ObjType) (rest : List Nat)
    (h : n < 65536) :
    parseObjectHandle (encU16 n ++ ty.to_u8 :: rest) = some (n, ty) := by
  simp [parseObjectHandle, encU16_eq, objType_tag_roundtrip]
  omega

/-- C2: for an HMAC-SHA256 key object and a payload whose first 32 bytes are
`tag` and whose remainder is `data`, `VerifyHmac` answers a single result
byte that is 1 exactly when `SignHmac` over `data` answers `tag` (and 0
otherwise); the comparison is the constant-time `ct_eq` fold embedded in
`ctEq`. -/
theorem verify_hmac_iff_sign_hmac (s : State) (obj : Object) (kid : Nat)
    (key tag data : List Nat)
    (hkid : kid < 65536)
    (hk : Store.get s.objects kid .HmacKey = some obj)
    (hp : obj.payload = .HmacKey .Sha256 key)
    (hlen : tag.length = 32) :
    ∃ r : Nat,
      verify_hmac s (encU16 kid ++ (tag ++ data)) =
        some (.success (.VerifyHmacResp r)) ∧
      (r = 0 ∨ r = 1) ∧
      (r = 1 ↔ sign_hmac s (encU16 kid ++ data) =
        some (.success (.SignHmacResp tag))) := by
  have hparsev := parseU16_encU16 kid (tag ++ data) hkid
  have hparses := parseU16_encU16 kid data hkid
  have hlen32 : 32 ≤ (tag ++ data).length := by simp [List.length_append, hlen]
  have htake : (tag ++ data).take 32 = tag := List.take_left' hlen
  have hdrop : (tag ++ data).drop 32 = data := List.drop_left' hlen
  refine ⟨ctEq (hmacSha256 key data) tag, ?_, ctEq_zero_or_one _ _, ?_⟩
  · simp only [verify_hmac, hparsev, hk, hp, if_pos hlen32, htake, hdrop]
    simp
  · rw [ctEq_eq_one_iff]
    simp only [sign_hmac, hparses, hk, hp]
    simp

/-- C4: on an RSA key, `SignPkcs1` dispatches by digest length — 20 bytes to
SHA-1, 32 to SHA-256, 48 to SHA-384, 64 to SHA-512 — and any other length
yields device error `InvalidCommand` with no signature produced. -/
theorem sign_pkcs1_digest_dispatch (s : State) (obj : Object) (kid : Nat)
    (key digest : List Nat)
    (hkid : kid < 65536)
    (hk : Store.get s.objects kid .AsymmetricKey = some obj)
    (hp : obj.payload = .RsaKey key) :
    (digest.length = 20 → sign_pkcs1v15 s (encU16 kid ++ digest) =
      some (.success (.SignPkcs1Resp (rsaPkcs1Sign .Sha1 key digest)))) ∧
    (digest.length = 32 → sign_pkcs1v15 s (encU16 kid ++ digest) =
      some (.success (.SignPkcs1Resp (rsaPkcs1Sign .Sha256 key digest)))) ∧
    (digest.length = 48 → sign_pkcs1v15 s (encU16 kid ++ digest) =
      some (.success (.SignPkcs1Resp (rsaPkcs1Sign .Sha384 key digest)))) ∧
    (digest.length = 64 → sign_pkcs1v15 s (encU16 kid ++ digest) =
      some (.success (.SignPkcs1Resp (rsaPkcs1Sign .Sha512 key digest)))) ∧
    (digest.length ≠ 20 → digest.length ≠ 32 → digest.length ≠ 48 →
      digest.length ≠ 64 →
      sign_pkcs1v15 s (encU16 kid ++ digest) =
        some (.deviceError .InvalidCommand) ∧
      ∀ sig : List Nat, sign_pkcs1v15 s (encU16 kid ++ digest) ≠
        some (.success (.SignPkcs1Resp sig))) := by
  have hparse := parseU16_encU16 kid digest hkid
  refine ⟨?_, ?_, ?_, ?_, ?_⟩
  · intro h20
    simp [sign_pkcs1v15, hparse, hk, hp, h20]
  · intro h32
    simp [sign_pkcs1v15, hparse, hk, hp, h32]
  · intro h48
    simp [sign_pkcs1v15, hparse, hk, hp, h48]
  · intro h64
    simp [sign_pkcs1v15, hparse, hk, hp, h64]
  · intro h20 h32 h48 h64
    constructor
    · simp [sign_pkcs1v15, hparse, hk, hp, h20, h32, h48, h64]
    · intro sig
      simp [sign_pkcs1v15, hparse, hk, hp, h20, h32, h48, h64]

/-- C2 witness: the HMAC key at id 7 of the example state, tag computed over
`[1, 2]`. -/
theorem verify_hmac_iff_sign_hmac_witness :
    7 < 65536 ∧
    Store.get exState.objects 7 .HmacKey = some exHmacKey ∧
    exHmacKey.payload = Payload.HmacKey .Sha256 [9, 9, 9] ∧
    (hmacSha256 [9, 9, 9] [1, 2]).length = 32 ∧
    (∃ r : Nat,
      verify_hmac exState (encU16 7 ++ (hmacSha256 [9, 9, 9] [1, 2] ++ [1, 2])) =
        some (.success (.VerifyHmacResp r)) ∧
      (r = 0 ∨ r = 1) ∧
      (r = 1 ↔ sign_hmac exState (encU16 7 ++ [1, 2]) =
        some (.success (.SignHmacResp (hmacSha256 [9, 9, 9] [1, 2]))))) :=
  ⟨by decide, by decide, by decide, by decide,
    verify_hmac_iff_sign_hmac exState exHmacKey 7 [9, 9, 9]
      (hmacSha256 [9, 9, 9] [1, 2]) [1, 2] (by decide) (by decide) (by decide)
      (by decide)⟩

/-- C4 witness: the RSA key at id 100 of the example state, a 20-byte digest
dispatching to SHA-1 and a 5-byte digest rejected. -/
theorem sign_pkcs1_digest_dispatch_witness :
    100 < 65536 ∧
    Store.get exState.objects 100 .AsymmetricKey = some exRsaKey ∧
    exRsaKey.payload = Payload.RsaKey [1, 2, 3] ∧
    sign_pkcs1v15 exState (encU16 100 ++ List.replicate 20 0) =
      some (.success (.SignPkcs1Resp
        (rsaPkcs1Sign .Sha1 [1, 2, 3] (List.replicate 20 0)))) ∧
    sign_pkcs1v15 exState (encU16 100 ++ List.replicate 5 0) =
      some (.deviceError .InvalidCommand) :=
  ⟨by decide, by decide, by decide,
    (sign_pkcs1_digest_dispatch exState exRsaKey 100 [1, 2, 3]
      (List.replicate 20 0) (by decide) (by decide) (by decide)).1 (by decide),
    ((sign_pkcs1_digest_dispatch exState exRsaKey 100 [1, 2, 3]
      (List.replicate 5 0) (by decide) (by decide) (by decide)).2.2.2.2
      (by decide) (by decide) (by decide) (by decide)).1⟩

/-- C3 counterexample: an empty inner body fails to deserialize as a
`DeleteObjectCommand`, and the handler panics (no response at all) instead of
answering device error `InvalidCommand`. -/
theorem malformed_body_counterexample :
    (delete_object exState []).2 = none ∧
    (delete_object exState []).2 ≠
      some (RespMessage.deviceError .InvalidCommand) := by
  decide

/-- C3 (amended): an inner body that fails to deserialize into the handler's
typed request record makes the handler panic — no response is produced and
the state is untouched — rather than answer device error `InvalidCommand`. -/
theorem malformed_body_panics (s : State) (d : List Nat)
    (h1 : parseObjectHandle d = none) (h2 : parseU16 d = none) :
    delete_object s d = (s, none) ∧ sign_ecdsa s d = none := by
  constructor
  · simp [delete_object, h1]
  · simp [sign_ecdsa, h2]

/-- C3 witness: the empty body at the example state. -/
theorem malformed_body_panics_witness :
    parseObjectHandle ([] : List Nat) = none ∧
    parseU16 ([] : List Nat) = none ∧
    (delete_object exState [] = (exState, none) ∧
      sign_ecdsa exState [] = none) :=
  ⟨by decide, by decide, malformed_body_panics exState [] (by decide) (by decide)⟩

/-- C7: on an RSA key, a failed OAEP decryption (padding error) answers
device error `InvalidData`. -/
theorem decrypt_oaep_padding_failure (s : State) (obj : Object)
    (cmd : DecryptOaepCmd) (d key : List Nat)
    (hparse : parseDecryptOaep d = some cmd)
    (hk : Store.get s.objects cmd.key_id .AsymmetricKey = some obj)
    (hp : obj.payload = .RsaKey key)
    (hfail : oaepDecrypt (MgfAlg.digest cmd.mgf1_hash_alg) cmd.label_hash key
      cmd.data = none) :
    decrypt_oaep s d = some (.deviceError .InvalidData) := by
  simp [decrypt_oaep, hparse, hk, hp, hfail]

/-- C7 witness: the RSA key at id 100, MGF1-SHA1 and a one-byte ciphertext
the OAEP model rejects. -/
theorem decrypt_oaep_padding_failure_witness :
    parseDecryptOaep (encU16 100 ++ 32 :: (1 :: List.replicate 20 0)) =
      some ⟨100, .Sha1, [1], List.replicate 20 0⟩ ∧
    Store.get exState.objects 100 .AsymmetricKey = some exRsaKey ∧
    exRsaKey.payload = Payload.RsaKey [1, 2, 3] ∧
    oaepDecrypt (MgfAlg.digest .Sha1) (List.replicate 20 0) [1, 2, 3] [1] = none ∧
    decrypt_oaep exState (encU16 100 ++ 32 :: (1 :: List.replicate 20 0)) =
      some (.deviceError .InvalidData) :=
  ⟨by decide, by decide, by decide, by decide,
    decrypt_oaep_padding_failure exState exRsaKey
      ⟨100, .Sha1, [1], List.replicate 20 0⟩
      (encU16 100 ++ 32 :: (1 :: List.replicate 20 0)) [1, 2, 3]
      (by decide) (by decide) (by decide) (by decide)⟩

/-- C6: `ListObjects` answers exactly the entries of stored objects accepted
by every supplied filter (equality for Algorithm, Label, Id, Type; bitmask
containment for Capabilities and Domains); an empty filter set accepts every
object. -/
theorem list_objects_filter_exact (s : State) (d : List Nat) (fs : List Filter)
    (entries : List Entry)
    (hparse : parseFilters d = some fs)
    (hrun : list_objects s d = some (.success (.ListObjectsResp entries))) :
    ∀ e : Entry, e ∈ entries ↔
      ∃ o : Object, o ∈ s.objects ∧ (∀ f ∈ fs, filterMatches o f = true) ∧
        Entry.ofObject o = e := by
  have hent : entries = (s.objects.filter (fun o =>
      if fs.isEmpty then true
      else fs.all (fun f => filterMatches o f))).map Entry.ofObject := by
    simp only [list_objects, hparse, Option.some.injEq,
      RespMessage.success.injEq, RespData.ListObjectsResp.injEq] at hrun
    exact hrun.symm
  intro e
  rw [hent]
  simp only [List.mem_map, List.mem_filter]
  constructor
  · rintro ⟨o, ⟨ho, hpred⟩, rfl⟩
    refine ⟨o, ho, ?_, rfl⟩
    intro f hf
    by_cases hfs : fs.isEmpty
    · rw [List.isEmpty_iff] at hfs
      subst hfs
      simp at hf
    · rw [if_neg hfs] at hpred
      exact List.all_eq_true.mp hpred f hf
  · rintro ⟨o, ho, hall, rfl⟩
    refine ⟨o, ⟨ho, ?_⟩, rfl⟩
    by_cases hfs : fs.isEmpty
    · simp [hfs]
    · rw [if_neg hfs]
      exact List.all_eq_true.mpr hall

/-- C6 witness: a single Type filter over the example state. -/
theorem list_objects_filter_exact_witness :
    parseFilters [2, 3] = some [Filter.TypeFilter .AsymmetricKey] ∧
    list_objects exState [2, 3] = some (.success (.ListObjectsResp
      [⟨100, .AsymmetricKey, 0⟩, ⟨1, .AsymmetricKey, 0⟩])) ∧
    (∀ e : Entry, e ∈ ([⟨100, .AsymmetricKey, 0⟩, ⟨1, .AsymmetricKey, 0⟩] : List Entry) ↔
      ∃ o : Object, o ∈ exState.objects ∧
        (∀ f ∈ [Filter.TypeFilter .AsymmetricKey], filterMatches o f = true) ∧
        Entry.ofObject o = e) :=
  ⟨by decide, by decide,
    list_objects_filter_exact exState [2, 3] [Filter.TypeFilter .AsymmetricKey]
      [⟨100, .AsymmetricKey, 0⟩, ⟨1, .AsymmetricKey, 0⟩] (by decide) (by decide)⟩

/-- C10: every handler the dispatcher invokes through a shared reference —
the get/list/sign/verify/decrypt family — leaves the object store, the
session table and the audit option settings untouched. -/
theorem read_only_handlers_frame (s : State) (ent : List Nat)
    (now serialRand sid : Nat) (c : Code) (d : List Nat)
    (hc : c ∈ readOnlyCodes) :
    (dispatchCommand s ent now serialRand sid c d).1.objects = s.objects ∧
    (dispatchCommand s ent now serialRand sid c d).1.sessions = s.sessions ∧
    (dispatchCommand s ent now serialRand sid c d).1.command_audit_options =
      s.command_audit_options ∧
    (dispatchCommand s ent now serialRand sid c d).1.force_audit = s.force_audit ∧
    (dispatchCommand s ent now serialRand sid c d).1.fips = s.fips := by
  simp only [readOnlyCodes, List.mem_cons, List.not_mem_nil, or_false] at hc
  rcases hc with rfl | rfl | rfl | rfl | rfl | rfl | rfl | rfl | rfl | rfl |
    rfl | rfl | rfl | rfl <;>
    exact ⟨rfl, rfl, rfl, rfl, rfl⟩

/-- C10 witness: `GetObjectInfo` on the example state. -/
theorem read_only_handlers_frame_witness :
    Code.GetObjectInfo ∈ readOnlyCodes ∧
    ((dispatchCommand exState [] 0 0 0 .GetObjectInfo []).1.objects =
        exState.objects ∧
      (dispatchCommand exState [] 0 0 0 .GetObjectInfo []).1.sessions =
        exState.sessions ∧
      (dispatchCommand exState [] 0 0 0 .GetObjectInfo []).1.command_audit_options =
        exState.command_audit_options ∧
      (dispatchCommand exState [] 0 0 0 .GetObjectInfo []).1.force_audit =
        exState.force_audit ∧
      (dispatchCommand exState [] 0 0 0 .GetObjectInfo []).1.fips = exState.fips) :=
  ⟨by decide, read_only_handlers_frame exState [] 0 0 0 .GetObjectInfo [] (by decide)⟩

/-- C9: an outer command that parses to a type other than `CreateSession`,
`AuthSession` or `SessionMessage` — `Echo` among them — makes
`MockAdapter::send_message` fail with a `ConnectionFailed` adapter error
instead of dispatching; a body that does not parse fails the same way. -/
theorem send_message_rejects_non_session (s : State) (body : List Nat) :
    (∀ msg : CommandMessage, CommandMessage.parse body = some msg →
      msg.command_type ≠ .CreateSession → msg.command_type ≠ .AuthSession →
      msg.command_type ≠ .SessionMessage →
      send_message s body = .error .ConnectionFailed) ∧
    (CommandMessage.parse body = none →
      send_message s body = .error .ConnectionFailed) := by
  constructor
  · rintro ⟨ct, sid, data⟩ hp h1 h2 h3
    cases ct <;>
      first
        | exact absurd rfl h1
        | exact absurd rfl h2
        | exact absurd rfl h3
        | simp [send_message, hp]
  · intro hp
    simp [send_message, hp]

/-- C9 witness: the outer `Echo` frame `[0x03, 0, 0]`. -/
theorem send_message_rejects_non_session_witness :
    CommandMessage.parse [3, 0, 0] = some ⟨.Echo, none, []⟩ ∧
    send_message exState [3, 0, 0] = .error .ConnectionFailed :=
  ⟨by decide,
    (send_message_rejects_non_session exState [3, 0, 0]).1 ⟨.Echo, none, []⟩
      (by decide) (by decide) (by decide) (by decide)⟩

/-- C1: exporting a wrappable object under a wrap key and importing the
resulting ciphertext under the same key reinserts the object with id, type,
algorithm, label, capability masks, domains and sequence preserved — all info
fields but the origin, which becomes `Wrapped` — and the payload intact. -/
theorem wrap_unwrap_roundtrip (store : Store) (wkid : Nat) (wk o : Object)
    (walg : WrapAlg) (wkey nonce : List Nat)
    (hwk : Store.get store wkid .WrapKey = some wk)
    (hwp : wk.payload = .WrapKey walg wkey)
    (hobj : Store.get store o.object_info.object_id o.object_info.object_type =
      some o)
    (hcap : bitContains wk.object_info.delegated_capabilities
      o.object_info.capabilities = true)
    (hwf : o.object_info.wf)
    (hmatch : payloadMatches o.object_info.algorithm o.payload = true) :
    ∃ ct : List Nat,
      wrap_obj store wkid o.object_info.object_id o.object_info.object_type
        nonce = .ok ct ∧
      ∃ store' : Store,
        unwrap_obj store wkid nonce ct =
          .ok (store', { o.object_info with origin := .Wrapped }) ∧
        Store.get store' o.object_info.object_id o.object_info.object_type =
          some ⟨{ o.object_info with origin := .Wrapped }, o.payload⟩ := by
  refine ⟨ccmSeal wkey nonce (serializeInfo o.object_info ++ o.payload.to_bytes),
    ?_, ?_⟩
  · simp [wrap_obj, hwk, hwp, hobj, hcap]
  · refine ⟨Store.putObj store ⟨{ o.object_info with origin := .Wrapped },
      o.payload⟩, ?_, ?_⟩
    · simp only [unwrap_obj, hwk, hwp, ccmOpen_ccmSeal,
        deserializeInfo_serializeInfo o.object_info _ hwf,
        payloadFromBytes_to_bytes _ _ hmatch, hcap]
      simp
    · have hput := Store.get_putObj store
        ⟨{ o.object_info with origin := .Wrapped }, o.payload⟩
      simpa using hput

/-- C1 witness: the HMAC key at id 7 wrapped under the wrap key at id 200 of
the example state, with an all-ones nonce. -/
theorem wrap_unwrap_roundtrip_witness :
    Store.get exState.objects 200 .WrapKey = some exWrapKey ∧
    exWrapKey.payload = Payload.WrapKey .Aes128Ccm [5, 6] ∧
    Store.get exState.objects 7 .HmacKey = some exHmacKey ∧
    bitContains exWrapKey.object_info.delegated_capabilities
      exHmacKey.object_info.capabilities = true ∧
    exHmacKey.object_info.wf ∧
    payloadMatches exHmacKey.object_info.algorithm exHmacKey.payload = true ∧
    (∃ ct : List Nat,
      wrap_obj exState.objects 200 7 .HmacKey (List.replicate 13 1) = .ok ct ∧
      ∃ store' : Store,
        unwrap_obj exState.objects 200 (List.replicate 13 1) ct =
          .ok (store', { exHmacKey.object_info with origin := .Wrapped }) ∧
        Store.get store' 7 .HmacKey =
          some ⟨{ exHmacKey.object_info with origin := .Wrapped },
            exHmacKey.payload⟩) :=
  ⟨by decide, by decide, by decide, by decide, by decide, by decide,
    wrap_unwrap_roundtrip exState.objects 200 exWrapKey exHmacKey .Aes128Ccm
      [5, 6] (List.replicate 13 1) (by decide) (by decide) (by decide)
      (by decide) (by decide) (by decide)⟩

/-- C8: a well-formed object-referencing command whose `(id, type)` pair is
absent from the store answers device error `ObjectNotFound`, and the store is
unchanged (`delete_object` hands the state back untouched; the remaining
handlers hold the state by shared reference and return only a response). -/
theorem object_not_found_uniform (s : State) (kid akid now serialRand : Nat)
    (ty : ObjType) (bytes : List Nat)
    (hkid : kid < 65536) (hakid : akid < 65536)
    (hmiss : Store.get s.objects kid ty = none) :
    (get_object_info s (encU16 kid ++ ty.to_u8 :: bytes) =
      some (.deviceError .ObjectNotFound)) ∧
    (delete_object s (encU16 kid ++ ty.to_u8 :: bytes) =
      (s, some (.deviceError .ObjectNotFound))) ∧
    (ty = .AsymmetricKey →
      get_public_key s (encU16 kid ++ bytes) =
        some (.deviceError .ObjectNotFound) ∧
      sign_ecdsa s (encU16 kid ++ bytes) =
        some (.deviceError .ObjectNotFound) ∧
      sign_eddsa s (encU16 kid ++ bytes) =
        some (.deviceError .ObjectNotFound) ∧
      sign_pkcs1v15 s (encU16 kid ++ bytes) =
        some (.deviceError .ObjectNotFound) ∧
      sign_pss s (encU16 kid ++ 32 :: bytes) =
        some (.deviceError .ObjectNotFound) ∧
      (20 ≤ bytes.length →
        decrypt_oaep s (encU16 kid ++ 32 :: bytes) =
          some (.deviceError .ObjectNotFound)) ∧
      sign_attestation_certificate s now serialRand
          (encU16 kid ++ encU16 akid) =
        some (.deviceError .ObjectNotFound)) ∧
    (ty = .HmacKey →
      sign_hmac s (encU16 kid ++ bytes) =
        some (.deviceError .ObjectNotFound) ∧
      verify_hmac s (encU16 kid ++ bytes) =
        some (.deviceError .ObjectNotFound)) ∧
    (ty = .Opaque →
      get_opaque_object s (encU16 kid ++ bytes) =
        some (.deviceError .ObjectNotFound)) := by
  have hp16 := parseU16_encU16 kid bytes hkid
  have hph := parseObjectHandle_enc kid ty bytes hkid
  refine ⟨?_, ?_, ?_, ?_, ?_⟩
  · simp [get_object_info, hph, hmiss]
  · simp [delete_object, hph, Store.removeObj, hmiss]
  · rintro rfl
    refine ⟨?_, ?_, ?_, ?_, ?_, ?_, ?_⟩
    · simp [get_public_key, hp16, hmiss]
    · simp [sign_ecdsa, hp16, hmiss]
    · simp [sign_eddsa, hp16, hmiss]
    · simp [sign_pkcs1v15, hp16, hmiss]
    · have : parseSignPss (encU16 kid ++ 32 :: bytes) = some (kid, .Sha1, bytes) := by
        simp [parseSignPss, parseU16_encU16 kid (32 :: bytes) hkid, readByte,
          MgfAlg.from_u8]
      simp [sign_pss, this, hmiss]
    · intro hblen
      have : parseDecryptOaep (encU16 kid ++ 32 :: bytes) = some
          ⟨kid, .Sha1, bytes.take (bytes.length - 20),
            bytes.drop (bytes.length - 20)⟩ := by
        simp [parseDecryptOaep, parseU16_encU16 kid (32 :: bytes) hkid, readByte,
          MgfAlg.from_u8, MgfAlg.digest, DigestAlg.len, hblen]
      simp [decrypt_oaep, this, hmiss]
    · have : parseSignAttestation (encU16 kid ++ encU16 akid) = some (kid, akid) := by
        have h2 := parseU16_encU16 kid (encU16 akid) hkid
        simp [parseSignAttestation, h2, parseU16, encU16_eq]
        omega
      simp [sign_attestation_certificate, this, hmiss]
  · rintro rfl
    exact ⟨by simp [sign_hmac, hp16, hmiss], by simp [verify_hmac, hp16, hmiss]⟩
  · rintro rfl
    simp [get_opaque_object, hp16, hmiss]

/-- C8 witness: id 33 is stored under no type in the example state. -/
theorem object_not_found_uniform_witness :
    33 < 65536 ∧
    Store.get exState.objects 33 .AsymmetricKey = none ∧
    (get_object_info exState (encU16 33 ++ ObjType.AsymmetricKey.to_u8 ::
        List.replicate 20 0) = some (.deviceError .ObjectNotFound) ∧
      delete_object exState (encU16 33 ++ ObjType.AsymmetricKey.to_u8 ::
        List.replicate 20 0) = (exState, some (.deviceError .ObjectNotFound)) ∧
      get_public_key exState (encU16 33 ++ List.replicate 20 0) =
        some (.deviceError .ObjectNotFound) ∧
      sign_pkcs1v15 exState (encU16 33 ++ List.replicate 20 0) =
        some (.deviceError .ObjectNotFound) ∧
      decrypt_oaep exState (encU16 33 ++ 32 :: List.replicate 20 0) =
        some (.deviceError .ObjectNotFound)) := by
  have h := object_not_found_uniform exState 33 1 0 0 .AsymmetricKey
    (List.replicate 20 0) (by decide) (by decide) (by decide)
  refine ⟨by decide, by decide, h.1, h.2.1, (h.2.2.1 rfl).1, ?_, ?_⟩
  · exact (h.2.2.1 rfl).2.2.2.1
  · exact ((h.2.2.1 rfl).2.2.2.2.2.1 (by decide))

/-- C5 counterexample: with the target key at id 100 and the attesting key at
id 1 in the example state, the minted certificate's issuer is the target's
attestation CN (`…id:0x0064`), not a name derived from the attesting key
(`…id:0x0001`): taking "the attesting key's implicit subject" to be the
attestation CN of the attesting key's own id, the claim fails. -/
theorem attestation_issuer_counterexample :
    (∃ cert : MockCertificate,
      sign_attestation_certificate exState 0 0 (encU16 100 ++ encU16 1) =
        some (.success (.AttestationCertificateResp cert)) ∧
      cert.issuer = attestationSubject 100 ∧
      cert.issuer ≠ attestationSubject 1) := by
  refine ⟨⟨attestationSubject 100, attestationSubject 100, 0, .moment 0,
    .infinity, [4, 7, 10], attExtensions attestationDeviceInfo
      exRsaKey.object_info, rsaPkcs1Sign .Sha256 [7, 8] []⟩, ?_, ?_, ?_⟩
  · decide
  · decide
  · decide

/-- C5 (amended): for a `SignAttestationCertificate` request whose target and
attesting keys exist as asymmetric keys with payloads the handler supports —
RSA or NIST P-256/P-384/P-521; any other payload hits the source's `todo!()`
and panics — the minted certificate has subject
`CN=YubiHSM Attestation id:0xNNNN` (the target id in `{:04x}` hex), issuer
equal to the certificate's own subject (the profile returns the subject
unchanged — this names the attesting key only when the attesting key is the
target), validity from `now` to infinity, and extensions embedding firmware
version, device serial, origin, domains, capabilities, object id and
label. -/
theorem sign_attestation_cert_shape (s : State) (target attKey : Object)
    (kid akid now serialRand : Nat)
    (hkid : kid < 65536) (hakid : akid < 65536)
    (htarget : Store.get s.objects kid .AsymmetricKey = some target)
    (hatt : Store.get s.objects akid .AsymmetricKey = some attKey)
    (htp : (∃ k, target.payload = .RsaKey k) ∨
      (∃ k, target.payload = .EcdsaNistP256 k) ∨
      (∃ k, target.payload = .EcdsaNistP384 k) ∨
      (∃ k, target.payload = .EcdsaNistP521 k))
    (hap : (∃ k, attKey.payload = .RsaKey k) ∨
      (∃ k, attKey.payload = .EcdsaNistP256 k) ∨
      (∃ k, attKey.payload = .EcdsaNistP384 k) ∨
      (∃ k, attKey.payload = .EcdsaNistP521 k)) :
    ∃ cert : MockCertificate,
      sign_attestation_certificate s now serialRand
          (encU16 kid ++ encU16 akid) =
        some (.success (.AttestationCertificateResp cert)) ∧
      cert.subject = attestationSubject target.object_info.object_id ∧
      cert.issuer = cert.subject ∧
      cert.not_before = .moment now ∧
      cert.not_after = .infinity ∧
      cert.extensions = attExtensions attestationDeviceInfo target.object_info := by
  have hparse : parseSignAttestation (encU16 kid ++ encU16 akid) =
      some (kid, akid) := by
    have h2 := parseU16_encU16 kid (encU16 akid) hkid
    simp [parseSignAttestation, h2, parseU16, encU16_eq]
    omega
  obtain ⟨spki, hspki⟩ : ∃ spki, attestationSpki target.payload = some spki := by
    rcases htp with ⟨k, hk⟩ | ⟨k, hk⟩ | ⟨k, hk⟩ | ⟨k, hk⟩ <;>
      exact ⟨k.map (fun b => (b * 3 + 1) % 256),
        by simp [hk, attestationSpki, Payload.public_key_bytes]⟩
  rcases hap with ⟨k, hk⟩ | ⟨k, hk⟩ | ⟨k, hk⟩ | ⟨k, hk⟩
  · refine ⟨⟨attestationSubject target.object_info.object_id,
      attestationSubject target.object_info.object_id, serialRand, .moment now,
      .infinity, spki, attExtensions attestationDeviceInfo target.object_info,
      rsaPkcs1Sign .Sha256 k []⟩, ?_, rfl, rfl, rfl, rfl, rfl⟩
    simp [sign_attestation_certificate, hparse, htarget, hatt, hspki, hk]
  · refine ⟨⟨attestationSubject target.object_info.object_id,
      attestationSubject target.object_info.object_id, serialRand, .moment now,
      .infinity, spki, attExtensions attestationDeviceInfo target.object_info,
      ecdsaSign 1 k []⟩, ?_, rfl, rfl, rfl, rfl, rfl⟩
    simp [sign_attestation_certificate, hparse, htarget, hatt, hspki, hk]
  · refine ⟨⟨attestationSubject target.object_info.object_id,
      attestationSubject target.object_info.object_id, serialRand, .moment now,
      .infinity, spki, attExtensions attestationDeviceInfo target.object_info,
      ecdsaSign 3 k []⟩, ?_, rfl, rfl, rfl, rfl, rfl⟩
    simp [sign_attestation_certificate, hparse, htarget, hatt, hspki, hk]
  · refine ⟨⟨attestationSubject target.object_info.object_id,
      attestationSubject target.object_info.object_id, serialRand, .moment now,
      .infinity, spki, attExtensions attestationDeviceInfo target.object_info,
      ecdsaSign 4 k []⟩, ?_, rfl, rfl, rfl, rfl, rfl⟩
    simp [sign_attestation_certificate, hparse, htarget, hatt, hspki, hk]

/-- C5 witness: the RSA target at id 100 attested by the RSA key at id 1,
and the NIST P-256 key at id 300 attesting itself (an EC signer branch). -/
theorem sign_attestation_cert_shape_witness :
    Store.get exState.objects 100 .AsymmetricKey = some exRsaKey ∧
    Store.get exState.objects 1 .AsymmetricKey = some exAttKey ∧
    Store.get exState5.objects 300 .AsymmetricKey = some exEcKey ∧
    exRsaKey.payload = Payload.RsaKey [1, 2, 3] ∧
    exAttKey.payload = Payload.RsaKey [7, 8] ∧
    exEcKey.payload = Payload.EcdsaNistP256 [4, 2] ∧
    (∃ cert : MockCertificate,
      sign_attestation_certificate exState 5 9 (encU16 100 ++ encU16 1) =
        some (.success (.AttestationCertificateResp cert)) ∧
      cert.subject = attestationSubject exRsaKey.object_info.object_id ∧
      cert.issuer = cert.subject ∧
      cert.not_before = .moment 5 ∧
      cert.not_after = .infinity ∧
      cert.extensions = attExtensions attestationDeviceInfo
        exRsaKey.object_info) ∧
    (∃ cert : MockCertificate,
      sign_attestation_certificate exState5 5 9 (encU16 300 ++ encU16 300) =
        some (.success (.AttestationCertificateResp cert)) ∧
      cert.subject = attestationSubject exEcKey.object_info.object_id ∧
      cert.issuer = cert.subject ∧
      cert.not_before = .moment 5 ∧
      cert.not_after = .infinity ∧
      cert.extensions = attExtensions attestationDeviceInfo
        exEcKey.object_info) :=
  ⟨by decide, by decide, by decide, by decide, by decide, by decide,
    sign_attestation_cert_shape exState exRsaKey exAttKey 100 1 5 9
      (by decide) (by decide) (by decide) (by decide)
      (Or.inl ⟨[1, 2, 3], by decide⟩) (Or.inl ⟨[7, 8], by decide⟩),
    sign_attestation_cert_shape exState5 exEcKey exEcKey 300 300 5 9
      (by decide) (by decide) (by decide) (by decide)
      (Or.inr (Or.inl ⟨[4, 2], by decide⟩))
      (Or.inr (Or.inl ⟨[4, 2], by decide⟩))⟩

end MockHsm



